import Mathlib

/-!
Run-time CPU dispatch header of the ARM build (`config/arm/config/av1_rtcd.h`).

The header is a generated registry: for every kernel it declares one prototype per compiled
variant (`<op>_c`, optionally `<op>_neon`) followed by `#define <op> <variant>`, and it ends
with `setup_rtcd_internal`, which reads the CPU flags and discards them.  The development
below embeds the registry as data (one entry per prototype and per `#define`, in header
order) and the set-up routine as a state transformer, and proves properties of both.
-/

namespace Av1Rtcd

/-- One parameter of a prototype: the declared type and the parameter name. -/
structure Param where
  ty : String
  name : String
deriving DecidableEq, Repr

/-- A function prototype `ret name(params);`. -/
structure Proto where
  ret : String
  name : String
  params : List Param
deriving DecidableEq, Repr

/-- A line of the registry part of the header: a prototype or `#define name target`. -/
inductive Decl where
  | proto (p : Proto)
  | define (name : String) (target : String)
deriving DecidableEq, Repr

/-- The registry of `av1_rtcd.h`, lines 79-394, in header order. -/
def av1_rtcd_h : List Decl :=
  .proto ⟨"void", "av1_apply_selfguided_restoration_c", [⟨"const uint8_t *", "dat"⟩, ⟨"int", "width"⟩, ⟨"int", "height"⟩, ⟨"int", "stride"⟩, ⟨"int", "eps"⟩, ⟨"const int *", "xqd"⟩, ⟨"uint8_t *", "dst"⟩, ⟨"int", "dst_stride"⟩, ⟨"int32_t *", "tmpbuf"⟩, ⟨"int", "bit_depth"⟩, ⟨"int", "highbd"⟩]⟩ ::
  .proto ⟨"void", "av1_apply_selfguided_restoration_neon", [⟨"const uint8_t *", "dat"⟩, ⟨"int", "width"⟩, ⟨"int", "height"⟩, ⟨"int", "stride"⟩, ⟨"int", "eps"⟩, ⟨"const int *", "xqd"⟩, ⟨"uint8_t *", "dst"⟩, ⟨"int", "dst_stride"⟩, ⟨"int32_t *", "tmpbuf"⟩, ⟨"int", "bit_depth"⟩, ⟨"int", "highbd"⟩]⟩ ::
  .define "av1_apply_selfguided_restoration" "av1_apply_selfguided_restoration_neon" ::
  .proto ⟨"void", "av1_build_compound_diffwtd_mask_c", [⟨"uint8_t *", "mask"⟩, ⟨"DIFFWTD_MASK_TYPE", "mask_type"⟩, ⟨"const uint8_t *", "src0"⟩, ⟨"int", "src0_stride"⟩, ⟨"const uint8_t *", "src1"⟩, ⟨"int", "src1_stride"⟩, ⟨"int", "h"⟩, ⟨"int", "w"⟩]⟩ ::
  .define "av1_build_compound_diffwtd_mask" "av1_build_compound_diffwtd_mask_c" ::
  .proto ⟨"void", "av1_build_compound_diffwtd_mask_d16_c", [⟨"uint8_t *", "mask"⟩, ⟨"DIFFWTD_MASK_TYPE", "mask_type"⟩, ⟨"const CONV_BUF_TYPE *", "src0"⟩, ⟨"int", "src0_stride"⟩, ⟨"const CONV_BUF_TYPE *", "src1"⟩, ⟨"int", "src1_stride"⟩, ⟨"int", "h"⟩, ⟨"int", "w"⟩, ⟨"ConvolveParams *", "conv_params"⟩, ⟨"int", "bd"⟩]⟩ ::
  .proto ⟨"void", "av1_build_compound_diffwtd_mask_d16_neon", [⟨"uint8_t *", "mask"⟩, ⟨"DIFFWTD_MASK_TYPE", "mask_type"⟩, ⟨"const CONV_BUF_TYPE *", "src0"⟩, ⟨"int", "src0_stride"⟩, ⟨"const CONV_BUF_TYPE *", "src1"⟩, ⟨"int", "src1_stride"⟩, ⟨"int", "h"⟩, ⟨"int", "w"⟩, ⟨"ConvolveParams *", "conv_params"⟩, ⟨"int", "bd"⟩]⟩ ::
  .define "av1_build_compound_diffwtd_mask_d16" "av1_build_compound_diffwtd_mask_d16_neon" ::
  .proto ⟨"void", "av1_build_compound_diffwtd_mask_highbd_c", [⟨"uint8_t *", "mask"⟩, ⟨"DIFFWTD_MASK_TYPE", "mask_type"⟩, ⟨"const uint8_t *", "src0"⟩, ⟨"int", "src0_stride"⟩, ⟨"const uint8_t *", "src1"⟩, ⟨"int", "src1_stride"⟩, ⟨"int", "h"⟩, ⟨"int", "w"⟩, ⟨"int", "bd"⟩]⟩ ::
  .define "av1_build_compound_diffwtd_mask_highbd" "av1_build_compound_diffwtd_mask_highbd_c" ::
  .proto ⟨"int64_t", "av1_calc_frame_error_c", [⟨"const uint8_t *const", "ref"⟩, ⟨"int", "stride"⟩, ⟨"const uint8_t *const", "dst"⟩, ⟨"int", "p_width"⟩, ⟨"int", "p_height"⟩, ⟨"int", "p_stride"⟩]⟩ ::
  .define "av1_calc_frame_error" "av1_calc_frame_error_c" ::
  .proto ⟨"void", "av1_cnn_activate_c", [⟨"float **", "input"⟩, ⟨"int", "channels"⟩, ⟨"int", "width"⟩, ⟨"int", "height"⟩, ⟨"int", "stride"⟩, ⟨"ACTIVATION", "layer_activation"⟩]⟩ ::
  .define "av1_cnn_activate" "av1_cnn_activate_c" ::
  .proto ⟨"void", "av1_cnn_add_c", [⟨"float **", "input"⟩, ⟨"int", "channels"⟩, ⟨"int", "width"⟩, ⟨"int", "height"⟩, ⟨"int", "stride"⟩, ⟨"const float **", "add"⟩]⟩ ::
  .define "av1_cnn_add" "av1_cnn_add_c" ::
  .proto ⟨"void", "av1_cnn_batchnorm_c", [⟨"float **", "image"⟩, ⟨"int", "channels"⟩, ⟨"int", "width"⟩, ⟨"int", "height"⟩, ⟨"int", "stride"⟩, ⟨"const float *", "gamma"⟩, ⟨"const float *", "beta"⟩, ⟨"const float *", "mean"⟩, ⟨"const float *", "std"⟩]⟩ ::
  .define "av1_cnn_batchnorm" "av1_cnn_batchnorm_c" ::
  .proto ⟨"void", "av1_cnn_convolve_c", [⟨"const float **", "input"⟩, ⟨"int", "in_width"⟩, ⟨"int", "in_height"⟩, ⟨"int", "in_stride"⟩, ⟨"const CNN_LAYER_CONFIG *", "layer_config"⟩, ⟨"float **", "output"⟩, ⟨"int", "out_stride"⟩, ⟨"int", "start_idx"⟩, ⟨"int", "step"⟩]⟩ ::
  .define "av1_cnn_convolve" "av1_cnn_convolve_c" ::
  .proto ⟨"void", "av1_cnn_deconvolve_c", [⟨"const float **", "input"⟩, ⟨"int", "in_width"⟩, ⟨"int", "in_height"⟩, ⟨"int", "in_stride"⟩, ⟨"const CNN_LAYER_CONFIG *", "layer_config"⟩, ⟨"float **", "output"⟩, ⟨"int", "out_stride"⟩]⟩ ::
  .define "av1_cnn_deconvolve" "av1_cnn_deconvolve_c" ::
  .proto ⟨"void", "av1_cnn_predict_c", [⟨"const float **", "input"⟩, ⟨"int", "in_width"⟩, ⟨"int", "in_height"⟩, ⟨"int", "in_stride"⟩, ⟨"const CNN_CONFIG *", "cnn_config"⟩, ⟨"const CNN_THREAD_DATA *", "thread_data"⟩, ⟨"CNN_MULTI_OUT *", "output_struct"⟩]⟩ ::
  .define "av1_cnn_predict" "av1_cnn_predict_c" ::
  .proto ⟨"void", "av1_convolve_2d_copy_sr_c", [⟨"const uint8_t *", "src"⟩, ⟨"int", "src_stride"⟩, ⟨"uint8_t *", "dst"⟩, ⟨"int", "dst_stride"⟩, ⟨"int", "w"⟩, ⟨"int", "h"⟩, ⟨"const InterpFilterParams *", "filter_params_x"⟩, ⟨"const InterpFilterParams *", "filter_params_y"⟩, ⟨"const int", "subpel_x_qn"⟩, ⟨"const int", "subpel_y_qn"⟩, ⟨"ConvolveParams *", "conv_params"⟩]⟩ ::
  .proto ⟨"void", "av1_convolve_2d_copy_sr_neon", [⟨"const uint8_t *", "src"⟩, ⟨"int", "src_stride"⟩, ⟨"uint8_t *", "dst"⟩, ⟨"int", "dst_stride"⟩, ⟨"int", "w"⟩, ⟨"int", "h"⟩, ⟨"const InterpFilterParams *", "filter_params_x"⟩, ⟨"const InterpFilterParams *", "filter_params_y"⟩, ⟨"const int", "subpel_x_qn"⟩, ⟨"const int", "subpel_y_qn"⟩, ⟨"ConvolveParams *", "conv_params"⟩]⟩ ::
  .define "av1_convolve_2d_copy_sr" "av1_convolve_2d_copy_sr_neon" ::
  .proto ⟨"void", "av1_convolve_2d_scale_c", [⟨"const uint8_t *", "src"⟩, ⟨"int", "src_stride"⟩, ⟨"uint8_t *", "dst"⟩, ⟨"int", "dst_stride"⟩, ⟨"int", "w"⟩, ⟨"int", "h"⟩, ⟨"const InterpFilterParams *", "filter_params_x"⟩, ⟨"const InterpFilterParams *", "filter_params_y"⟩, ⟨"const int", "subpel_x_qn"⟩, ⟨"const int", "x_step_qn"⟩, ⟨"const int", "subpel_y_qn"⟩, ⟨"const int", "y_step_qn"⟩, ⟨"ConvolveParams *", "conv_params"⟩]⟩ ::
  .define "av1_convolve_2d_scale" "av1_convolve_2d_scale_c" ::
  .proto ⟨"void", "av1_convolve_2d_sr_c", [⟨"const uint8_t *", "src"⟩, ⟨"int", "src_stride"⟩, ⟨"uint8_t *", "dst"⟩, ⟨"int", "dst_stride"⟩, ⟨"int", "w"⟩, ⟨"int", "h"⟩, ⟨"const InterpFilterParams *", "filter_params_x"⟩, ⟨"const InterpFilterParams *", "filter_params_y"⟩, ⟨"const int", "subpel_x_qn"⟩, ⟨"const int", "subpel_y_qn"⟩, ⟨"ConvolveParams *", "conv_params"⟩]⟩ ::
  .proto ⟨"void", "av1_convolve_2d_sr_neon", [⟨"const uint8_t *", "src"⟩, ⟨"int", "src_stride"⟩, ⟨"uint8_t *", "dst"⟩, ⟨"int", "dst_stride"⟩, ⟨"int", "w"⟩, ⟨"int", "h"⟩, ⟨"const InterpFilterParams *", "filter_params_x"⟩, ⟨"const InterpFilterParams *", "filter_params_y"⟩, ⟨"const int", "subpel_x_qn"⟩, ⟨"const int", "subpel_y_qn"⟩, ⟨"ConvolveParams *", "conv_params"⟩]⟩ ::
  .define "av1_convolve_2d_sr" "av1_convolve_2d_sr_neon" ::
  .proto ⟨"void", "av1_convolve_horiz_rs_c", [⟨"const uint8_t *", "src"⟩, ⟨"int", "src_stride"⟩, ⟨"uint8_t *", "dst"⟩, ⟨"int", "dst_stride"⟩, ⟨"int", "w"⟩, ⟨"int", "h"⟩, ⟨"const int16_t *", "x_filters"⟩, ⟨"int", "x0_qn"⟩, ⟨"int", "x_step_qn"⟩]⟩ ::
  .define "av1_convolve_horiz_rs" "av1_convolve_horiz_rs_c" ::
  .proto ⟨"void", "av1_convolve_x_sr_c", [⟨"const uint8_t *", "src"⟩, ⟨"int", "src_stride"⟩, ⟨"uint8_t *", "dst"⟩, ⟨"int", "dst_stride"⟩, ⟨"int", "w"⟩, ⟨"int", "h"⟩, ⟨"const InterpFilterParams *", "filter_params_x"⟩, ⟨"const InterpFilterParams *", "filter_params_y"⟩, ⟨"const int", "subpel_x_qn"⟩, ⟨"const int", "subpel_y_qn"⟩, ⟨"ConvolveParams *", "conv_params"⟩]⟩ ::
  .proto ⟨"void", "av1_convolve_x_sr_neon", [⟨"const uint8_t *", "src"⟩, ⟨"int", "src_stride"⟩, ⟨"uint8_t *", "dst"⟩, ⟨"int", "dst_stride"⟩, ⟨"int", "w"⟩, ⟨"int", "h"⟩, ⟨"const InterpFilterParams *", "filter_params_x"⟩, ⟨"const InterpFilterParams *", "filter_params_y"⟩, ⟨"const int", "subpel_x_qn"⟩, ⟨"const int", "subpel_y_qn"⟩, ⟨"ConvolveParams *", "conv_params"⟩]⟩ ::
  .define "av1_convolve_x_sr" "av1_convolve_x_sr_neon" ::
  .proto ⟨"void", "av1_convolve_y_sr_c", [⟨"const uint8_t *", "src"⟩, ⟨"int", "src_stride"⟩, ⟨"uint8_t *", "dst"⟩, ⟨"int", "dst_stride"⟩, ⟨"int", "w"⟩, ⟨"int", "h"⟩, ⟨"const InterpFilterParams *", "filter_params_x"⟩, ⟨"const InterpFilterParams *", "filter_params_y"⟩, ⟨"const int", "subpel_x_qn"⟩, ⟨"const int", "subpel_y_qn"⟩, ⟨"ConvolveParams *", "conv_params"⟩]⟩ ::
  .proto ⟨"void", "av1_convolve_y_sr_neon", [⟨"const uint8_t *", "src"⟩, ⟨"int", "src_stride"⟩, ⟨"uint8_t *", "dst"⟩, ⟨"int", "dst_stride"⟩, ⟨"int", "w"⟩, ⟨"int", "h"⟩, ⟨"const InterpFilterParams *", "filter_params_x"⟩, ⟨"const InterpFilterParams *", "filter_params_y"⟩, ⟨"const int", "subpel_x_qn"⟩, ⟨"const int", "subpel_y_qn"⟩, ⟨"ConvolveParams *", "conv_params"⟩]⟩ ::
  .define "av1_convolve_y_sr" "av1_convolve_y_sr_neon" ::
  .proto ⟨"void", "av1_dist_wtd_convolve_2d_c", [⟨"const uint8_t *", "src"⟩, ⟨"int", "src_stride"⟩, ⟨"uint8_t *", "dst"⟩, ⟨"int", "dst_stride"⟩, ⟨"int", "w"⟩, ⟨"int", "h"⟩, ⟨"const InterpFilterParams *", "filter_params_x"⟩, ⟨"const InterpFilterParams *", "filter_params_y"⟩, ⟨"const int", "subpel_x_qn"⟩, ⟨"const int", "subpel_y_qn"⟩, ⟨"ConvolveParams *", "conv_params"⟩]⟩ ::
  .proto ⟨"void", "av1_dist_wtd_convolve_2d_neon", [⟨"const uint8_t *", "src"⟩, ⟨"int", "src_stride"⟩, ⟨"uint8_t *", "dst"⟩, ⟨"int", "dst_stride"⟩, ⟨"int", "w"⟩, ⟨"int", "h"⟩, ⟨"const InterpFilterParams *", "filter_params_x"⟩, ⟨"const InterpFilterParams *", "filter_params_y"⟩, ⟨"const int", "subpel_x_qn"⟩, ⟨"const int", "subpel_y_qn"⟩, ⟨"ConvolveParams *", "conv_params"⟩]⟩ ::
  .define "av1_dist_wtd_convolve_2d" "av1_dist_wtd_convolve_2d_neon" ::
  .proto ⟨"void", "av1_dist_wtd_convolve_2d_copy_c", [⟨"const uint8_t *", "src"⟩, ⟨"int", "src_stride"⟩, ⟨"uint8_t *", "dst"⟩, ⟨"int", "dst_stride"⟩, ⟨"int", "w"⟩, ⟨"int", "h"⟩, ⟨"const InterpFilterParams *", "filter_params_x"⟩, ⟨"const InterpFilterParams *", "filter_params_y"⟩, ⟨"const int", "subpel_x_qn"⟩, ⟨"const int", "subpel_y_qn"⟩, ⟨"ConvolveParams *", "conv_params"⟩]⟩ ::
  .proto ⟨"void", "av1_dist_wtd_convolve_2d_copy_neon", [⟨"const uint8_t *", "src"⟩, ⟨"int", "src_stride"⟩, ⟨"uint8_t *", "dst"⟩, ⟨"int", "dst_stride"⟩, ⟨"int", "w"⟩, ⟨"int", "h"⟩, ⟨"const InterpFilterParams *", "filter_params_x"⟩, ⟨"const InterpFilterParams *", "filter_params_y"⟩, ⟨"const int", "subpel_x_qn"⟩, ⟨"const int", "subpel_y_qn"⟩, ⟨"ConvolveParams *", "conv_params"⟩]⟩ ::
  .define "av1_dist_wtd_convolve_2d_copy" "av1_dist_wtd_convolve_2d_copy_neon" ::
  .proto ⟨"void", "av1_dist_wtd_convolve_x_c", [⟨"const uint8_t *", "src"⟩, ⟨"int", "src_stride"⟩, ⟨"uint8_t *", "dst"⟩, ⟨"int", "dst_stride"⟩, ⟨"int", "w"⟩, ⟨"int", "h"⟩, ⟨"const InterpFilterParams *", "filter_params_x"⟩, ⟨"const InterpFilterParams *", "filter_params_y"⟩, ⟨"const int", "subpel_x_qn"⟩, ⟨"const int", "subpel_y_qn"⟩, ⟨"ConvolveParams *", "conv_params"⟩]⟩ ::
  .proto ⟨"void", "av1_dist_wtd_convolve_x_neon", [⟨"const uint8_t *", "src"⟩, ⟨"int", "src_stride"⟩, ⟨"uint8_t *", "dst"⟩, ⟨"int", "dst_stride"⟩, ⟨"int", "w"⟩, ⟨"int", "h"⟩, ⟨"const InterpFilterParams *", "filter_params_x"⟩, ⟨"const InterpFilterParams *", "filter_params_y"⟩, ⟨"const int", "subpel_x_qn"⟩, ⟨"const int", "subpel_y_qn"⟩, ⟨"ConvolveParams *", "conv_params"⟩]⟩ ::
  .define "av1_dist_wtd_convolve_x" "av1_dist_wtd_convolve_x_neon" ::
  .proto ⟨"void", "av1_dist_wtd_convolve_y_c", [⟨"const uint8_t *", "src"⟩, ⟨"int", "src_stride"⟩, ⟨"uint8_t *", "dst"⟩, ⟨"int", "dst_stride"⟩, ⟨"int", "w"⟩, ⟨"int", "h"⟩, ⟨"const InterpFilterParams *", "filter_params_x"⟩, ⟨"const InterpFilterParams *", "filter_params_y"⟩, ⟨"const int", "subpel_x_qn"⟩, ⟨"const int", "subpel_y_qn"⟩, ⟨"ConvolveParams *", "conv_params"⟩]⟩ ::
  .proto ⟨"void", "av1_dist_wtd_convolve_y_neon", [⟨"const uint8_t *", "src"⟩, ⟨"int", "src_stride"⟩, ⟨"uint8_t *", "dst"⟩, ⟨"int", "dst_stride"⟩, ⟨"int", "w"⟩, ⟨"int", "h"⟩, ⟨"const InterpFilterParams *", "filter_params_x"⟩, ⟨"const InterpFilterParams *", "filter_params_y"⟩, ⟨"const int", "subpel_x_qn"⟩, ⟨"const int", "subpel_y_qn"⟩, ⟨"ConvolveParams *", "conv_params"⟩]⟩ ::
  .define "av1_dist_wtd_convolve_y" "av1_dist_wtd_convolve_y_neon" ::
  .proto ⟨"void", "av1_dr_prediction_z1_c", [⟨"uint8_t *", "dst"⟩, ⟨"ptrdiff_t", "stride"⟩, ⟨"int", "bw"⟩, ⟨"int", "bh"⟩, ⟨"const uint8_t *", "above"⟩, ⟨"const uint8_t *", "left"⟩, ⟨"int", "upsample_above"⟩, ⟨"int", "dx"⟩, ⟨"int", "dy"⟩]⟩ ::
  .define "av1_dr_prediction_z1" "av1_dr_prediction_z1_c" ::
  .proto ⟨"void", "av1_dr_prediction_z2_c", [⟨"uint8_t *", "dst"⟩, ⟨"ptrdiff_t", "stride"⟩, ⟨"int", "bw"⟩, ⟨"int", "bh"⟩, ⟨"const uint8_t *", "above"⟩, ⟨"const uint8_t *", "left"⟩, ⟨"int", "upsample_above"⟩, ⟨"int", "upsample_left"⟩, ⟨"int", "dx"⟩, ⟨"int", "dy"⟩]⟩ ::
  .define "av1_dr_prediction_z2" "av1_dr_prediction_z2_c" ::
  .proto ⟨"void", "av1_dr_prediction_z3_c", [⟨"uint8_t *", "dst"⟩, ⟨"ptrdiff_t", "stride"⟩, ⟨"int", "bw"⟩, ⟨"int", "bh"⟩, ⟨"const uint8_t *", "above"⟩, ⟨"const uint8_t *", "left"⟩, ⟨"int", "upsample_left"⟩, ⟨"int", "dx"⟩, ⟨"int", "dy"⟩]⟩ ::
  .define "av1_dr_prediction_z3" "av1_dr_prediction_z3_c" ::
  .proto ⟨"void", "av1_filter_intra_edge_c", [⟨"uint8_t *", "p"⟩, ⟨"int", "sz"⟩, ⟨"int", "strength"⟩]⟩ ::
  .define "av1_filter_intra_edge" "av1_filter_intra_edge_c" ::
  .proto ⟨"void", "av1_filter_intra_edge_high_c", [⟨"uint16_t *", "p"⟩, ⟨"int", "sz"⟩, ⟨"int", "strength"⟩]⟩ ::
  .define "av1_filter_intra_edge_high" "av1_filter_intra_edge_high_c" ::
  .proto ⟨"void", "av1_filter_intra_predictor_c", [⟨"uint8_t *", "dst"⟩, ⟨"ptrdiff_t", "stride"⟩, ⟨"TX_SIZE", "tx_size"⟩, ⟨"const uint8_t *", "above"⟩, ⟨"const uint8_t *", "left"⟩, ⟨"int", "mode"⟩]⟩ ::
  .define "av1_filter_intra_predictor" "av1_filter_intra_predictor_c" ::
  .proto ⟨"void", "av1_highbd_convolve8_c", [⟨"const uint8_t *", "src"⟩, ⟨"ptrdiff_t", "src_stride"⟩, ⟨"uint8_t *", "dst"⟩, ⟨"ptrdiff_t", "dst_stride"⟩, ⟨"const int16_t *", "filter_x"⟩, ⟨"int", "x_step_q4"⟩, ⟨"const int16_t *", "filter_y"⟩, ⟨"int", "y_step_q4"⟩, ⟨"int", "w"⟩, ⟨"int", "h"⟩, ⟨"int", "bps"⟩]⟩ ::
  .define "av1_highbd_convolve8" "av1_highbd_convolve8_c" ::
  .proto ⟨"void", "av1_highbd_convolve8_horiz_c", [⟨"const uint8_t *", "src"⟩, ⟨"ptrdiff_t", "src_stride"⟩, ⟨"uint8_t *", "dst"⟩, ⟨"ptrdiff_t", "dst_stride"⟩, ⟨"const int16_t *", "filter_x"⟩, ⟨"int", "x_step_q4"⟩, ⟨"const int16_t *", "filter_y"⟩, ⟨"int", "y_step_q4"⟩, ⟨"int", "w"⟩, ⟨"int", "h"⟩, ⟨"int", "bps"⟩]⟩ ::
  .define "av1_highbd_convolve8_horiz" "av1_highbd_convolve8_horiz_c" ::
  .proto ⟨"void", "av1_highbd_convolve8_vert_c", [⟨"const uint8_t *", "src"⟩, ⟨"ptrdiff_t", "src_stride"⟩, ⟨"uint8_t *", "dst"⟩, ⟨"ptrdiff_t", "dst_stride"⟩, ⟨"const int16_t *", "filter_x"⟩, ⟨"int", "x_step_q4"⟩, ⟨"const int16_t *", "filter_y"⟩, ⟨"int", "y_step_q4"⟩, ⟨"int", "w"⟩, ⟨"int", "h"⟩, ⟨"int", "bps"⟩]⟩ ::
  .define "av1_highbd_convolve8_vert" "av1_highbd_convolve8_vert_c" ::
  .proto ⟨"void", "av1_highbd_convolve_2d_copy_sr_c", [⟨"const uint16_t *", "src"⟩, ⟨"int", "src_stride"⟩, ⟨"uint16_t *", "dst"⟩, ⟨"int", "dst_stride"⟩, ⟨"int", "w"⟩, ⟨"int", "h"⟩, ⟨"const InterpFilterParams *", "filter_params_x"⟩, ⟨"const InterpFilterParams *", "filter_params_y"⟩, ⟨"const int", "subpel_x_qn"⟩, ⟨"const int", "subpel_y_qn"⟩, ⟨"ConvolveParams *", "conv_params"⟩, ⟨"int", "bd"⟩]⟩ ::
  .define "av1_highbd_convolve_2d_copy_sr" "av1_highbd_convolve_2d_copy_sr_c" ::
  .proto ⟨"void", "av1_highbd_convolve_2d_scale_c", [⟨"const uint16_t *", "src"⟩, ⟨"int", "src_stride"⟩, ⟨"uint16_t *", "dst"⟩, ⟨"int", "dst_stride"⟩, ⟨"int", "w"⟩, ⟨"int", "h"⟩, ⟨"const InterpFilterParams *", "filter_params_x"⟩, ⟨"const InterpFilterParams *", "filter_params_y"⟩, ⟨"const int", "subpel_x_qn"⟩, ⟨"const int", "x_step_qn"⟩, ⟨"const int", "subpel_y_qn"⟩, ⟨"const int", "y_step_qn"⟩, ⟨"ConvolveParams *", "conv_params"⟩, ⟨"int", "bd"⟩]⟩ ::
  .define "av1_highbd_convolve_2d_scale" "av1_highbd_convolve_2d_scale_c" ::
  .proto ⟨"void", "av1_highbd_convolve_2d_sr_c", [⟨"const uint16_t *", "src"⟩, ⟨"int", "src_stride"⟩, ⟨"uint16_t *", "dst"⟩, ⟨"int", "dst_stride"⟩, ⟨"int", "w"⟩, ⟨"int", "h"⟩, ⟨"const InterpFilterParams *", "filter_params_x"⟩, ⟨"const InterpFilterParams *", "filter_params_y"⟩, ⟨"const int", "subpel_x_qn"⟩, ⟨"const int", "subpel_y_qn"⟩, ⟨"ConvolveParams *", "conv_params"⟩, ⟨"int", "bd"⟩]⟩ ::
  .define "av1_highbd_convolve_2d_sr" "av1_highbd_convolve_2d_sr_c" ::
  .proto ⟨"void", "av1_highbd_convolve_avg_c", [⟨"const uint8_t *", "src"⟩, ⟨"ptrdiff_t", "src_stride"⟩, ⟨"uint8_t *", "dst"⟩, ⟨"ptrdiff_t", "dst_stride"⟩, ⟨"const int16_t *", "filter_x"⟩, ⟨"int", "x_step_q4"⟩, ⟨"const int16_t *", "filter_y"⟩, ⟨"int", "y_step_q4"⟩, ⟨"int", "w"⟩, ⟨"int", "h"⟩, ⟨"int", "bps"⟩]⟩ ::
  .define "av1_highbd_convolve_avg" "av1_highbd_convolve_avg_c" ::
  .proto ⟨"void", "av1_highbd_convolve_copy_c", [⟨"const uint8_t *", "src"⟩, ⟨"ptrdiff_t", "src_stride"⟩, ⟨"uint8_t *", "dst"⟩, ⟨"ptrdiff_t", "dst_stride"⟩, ⟨"const int16_t *", "filter_x"⟩, ⟨"int", "x_step_q4"⟩, ⟨"const int16_t *", "filter_y"⟩, ⟨"int", "y_step_q4"⟩, ⟨"int", "w"⟩, ⟨"int", "h"⟩, ⟨"int", "bps"⟩]⟩ ::
  .define "av1_highbd_convolve_copy" "av1_highbd_convolve_copy_c" ::
  .proto ⟨"void", "av1_highbd_convolve_horiz_rs_c", [⟨"const uint16_t *", "src"⟩, ⟨"int", "src_stride"⟩, ⟨"uint16_t *", "dst"⟩, ⟨"int", "dst_stride"⟩, ⟨"int", "w"⟩, ⟨"int", "h"⟩, ⟨"const int16_t *", "x_filters"⟩, ⟨"int", "x0_qn"⟩, ⟨"int", "x_step_qn"⟩, ⟨"int", "bd"⟩]⟩ ::
  .define "av1_highbd_convolve_horiz_rs" "av1_highbd_convolve_horiz_rs_c" ::
  .proto ⟨"void", "av1_highbd_convolve_x_sr_c", [⟨"const uint16_t *", "src"⟩, ⟨"int", "src_stride"⟩, ⟨"uint16_t *", "dst"⟩, ⟨"int", "dst_stride"⟩, ⟨"int", "w"⟩, ⟨"int", "h"⟩, ⟨"const InterpFilterParams *", "filter_params_x"⟩, ⟨"const InterpFilterParams *", "filter_params_y"⟩, ⟨"const int", "subpel_x_qn"⟩, ⟨"const int", "subpel_y_qn"⟩, ⟨"ConvolveParams *", "conv_params"⟩, ⟨"int", "bd"⟩]⟩ ::
  .define "av1_highbd_convolve_x_sr" "av1_highbd_convolve_x_sr_c" ::
  .proto ⟨"void", "av1_highbd_convolve_y_sr_c", [⟨"const uint16_t *", "src"⟩, ⟨"int", "src_stride"⟩, ⟨"uint16_t *", "dst"⟩, ⟨"int", "dst_stride"⟩, ⟨"int", "w"⟩, ⟨"int", "h"⟩, ⟨"const InterpFilterParams *", "filter_params_x"⟩, ⟨"const InterpFilterParams *", "filter_params_y"⟩, ⟨"const int", "subpel_x_qn"⟩, ⟨"const int", "subpel_y_qn"⟩, ⟨"ConvolveParams *", "conv_params"⟩, ⟨"int", "bd"⟩]⟩ ::
  .define "av1_highbd_convolve_y_sr" "av1_highbd_convolve_y_sr_c" ::
  .proto ⟨"void", "av1_highbd_dist_wtd_convolve_2d_c", [⟨"const uint16_t *", "src"⟩, ⟨"int", "src_stride"⟩, ⟨"uint16_t *", "dst"⟩, ⟨"int", "dst_stride"⟩, ⟨"int", "w"⟩, ⟨"int", "h"⟩, ⟨"const InterpFilterParams *", "filter_params_x"⟩, ⟨"const InterpFilterParams *", "filter_params_y"⟩, ⟨"const int", "subpel_x_qn"⟩, ⟨"const int", "subpel_y_qn"⟩, ⟨"ConvolveParams *", "conv_params"⟩, ⟨"int", "bd"⟩]⟩ ::
  .define "av1_highbd_dist_wtd_convolve_2d" "av1_highbd_dist_wtd_convolve_2d_c" ::
  .proto ⟨"void", "av1_highbd_dist_wtd_convolve_2d_copy_c", [⟨"const uint16_t *", "src"⟩, ⟨"int", "src_stride"⟩, ⟨"uint16_t *", "dst"⟩, ⟨"int", "dst_stride"⟩, ⟨"int", "w"⟩, ⟨"int", "h"⟩, ⟨"const InterpFilterParams *", "filter_params_x"⟩, ⟨"const InterpFilterParams *", "filter_params_y"⟩, ⟨"const int", "subpel_x_qn"⟩, ⟨"const int", "subpel_y_qn"⟩, ⟨"ConvolveParams *", "conv_params"⟩, ⟨"int", "bd"⟩]⟩ ::
  .define "av1_highbd_dist_wtd_convolve_2d_copy" "av1_highbd_dist_wtd_convolve_2d_copy_c" ::
  .proto ⟨"void", "av1_highbd_dist_wtd_convolve_x_c", [⟨"const uint16_t *", "src"⟩, ⟨"int", "src_stride"⟩, ⟨"uint16_t *", "dst"⟩, ⟨"int", "dst_stride"⟩, ⟨"int", "w"⟩, ⟨"int", "h"⟩, ⟨"const InterpFilterParams *", "filter_params_x"⟩, ⟨"const InterpFilterParams *", "filter_params_y"⟩, ⟨"const int", "subpel_x_qn"⟩, ⟨"const int", "subpel_y_qn"⟩, ⟨"ConvolveParams *", "conv_params"⟩, ⟨"int", "bd"⟩]⟩ ::
  .define "av1_highbd_dist_wtd_convolve_x" "av1_highbd_dist_wtd_convolve_x_c" ::
  .proto ⟨"void", "av1_highbd_dist_wtd_convolve_y_c", [⟨"const uint16_t *", "src"⟩, ⟨"int", "src_stride"⟩, ⟨"uint16_t *", "dst"⟩, ⟨"int", "dst_stride"⟩, ⟨"int", "w"⟩, ⟨"int", "h"⟩, ⟨"const InterpFilterParams *", "filter_params_x"⟩, ⟨"const InterpFilterParams *", "filter_params_y"⟩, ⟨"const int", "subpel_x_qn"⟩, ⟨"const int", "subpel_y_qn"⟩, ⟨"ConvolveParams *", "conv_params"⟩, ⟨"int", "bd"⟩]⟩ ::
  .define "av1_highbd_dist_wtd_convolve_y" "av1_highbd_dist_wtd_convolve_y_c" ::
  .proto ⟨"void", "av1_highbd_dr_prediction_z1_c", [⟨"uint16_t *", "dst"⟩, ⟨"ptrdiff_t", "stride"⟩, ⟨"int", "bw"⟩, ⟨"int", "bh"⟩, ⟨"const uint16_t *", "above"⟩, ⟨"const uint16_t *", "left"⟩, ⟨"int", "upsample_above"⟩, ⟨"int", "dx"⟩, ⟨"int", "dy"⟩, ⟨"int", "bd"⟩]⟩ ::
  .define "av1_highbd_dr_prediction_z1" "av1_highbd_dr_prediction_z1_c" ::
  .proto ⟨"void", "av1_highbd_dr_prediction_z2_c", [⟨"uint16_t *", "dst"⟩, ⟨"ptrdiff_t", "stride"⟩, ⟨"int", "bw"⟩, ⟨"int", "bh"⟩, ⟨"const uint16_t *", "above"⟩, ⟨"const uint16_t *", "left"⟩, ⟨"int", "upsample_above"⟩, ⟨"int", "upsample_left"⟩, ⟨"int", "dx"⟩, ⟨"int", "dy"⟩, ⟨"int", "bd"⟩]⟩ ::
  .define "av1_highbd_dr_prediction_z2" "av1_highbd_dr_prediction_z2_c" ::
  .proto ⟨"void", "av1_highbd_dr_prediction_z3_c", [⟨"uint16_t *", "dst"⟩, ⟨"ptrdiff_t", "stride"⟩, ⟨"int", "bw"⟩, ⟨"int", "bh"⟩, ⟨"const uint16_t *", "above"⟩, ⟨"const uint16_t *", "left"⟩, ⟨"int", "upsample_left"⟩, ⟨"int", "dx"⟩, ⟨"int", "dy"⟩, ⟨"int", "bd"⟩]⟩ ::
  .define "av1_highbd_dr_prediction_z3" "av1_highbd_dr_prediction_z3_c" ::
  .proto ⟨"void", "av1_highbd_inv_txfm_add_c", [⟨"const tran_low_t *", "input"⟩, ⟨"uint8_t *", "dest"⟩, ⟨"int", "stride"⟩, ⟨"const TxfmParam *", "txfm_param"⟩]⟩ ::
  .define "av1_highbd_inv_txfm_add" "av1_highbd_inv_txfm_add_c" ::
  .proto ⟨"void", "av1_highbd_inv_txfm_add_16x4_c", [⟨"const tran_low_t *", "input"⟩, ⟨"uint8_t *", "dest"⟩, ⟨"int", "stride"⟩, ⟨"const TxfmParam *", "txfm_param"⟩]⟩ ::
  .define "av1_highbd_inv_txfm_add_16x4" "av1_highbd_inv_txfm_add_16x4_c" ::
  .proto ⟨"void", "av1_highbd_inv_txfm_add_4x16_c", [⟨"const tran_low_t *", "input"⟩, ⟨"uint8_t *", "dest"⟩, ⟨"int", "stride"⟩, ⟨"const TxfmParam *", "txfm_param"⟩]⟩ ::
  .define "av1_highbd_inv_txfm_add_4x16" "av1_highbd_inv_txfm_add_4x16_c" ::
  .proto ⟨"void", "av1_highbd_inv_txfm_add_4x4_c", [⟨"const tran_low_t *", "input"⟩, ⟨"uint8_t *", "dest"⟩, ⟨"int", "stride"⟩, ⟨"const TxfmParam *", "txfm_param"⟩]⟩ ::
  .define "av1_highbd_inv_txfm_add_4x4" "av1_highbd_inv_txfm_add_4x4_c" ::
  .proto ⟨"void", "av1_highbd_inv_txfm_add_4x8_c", [⟨"const tran_low_t *", "input"⟩, ⟨"uint8_t *", "dest"⟩, ⟨"int", "stride"⟩, ⟨"const TxfmParam *", "txfm_param"⟩]⟩ ::
  .define "av1_highbd_inv_txfm_add_4x8" "av1_highbd_inv_txfm_add_4x8_c" ::
  .proto ⟨"void", "av1_highbd_inv_txfm_add_8x4_c", [⟨"const tran_low_t *", "input"⟩, ⟨"uint8_t *", "dest"⟩, ⟨"int", "stride"⟩, ⟨"const TxfmParam *", "txfm_param"⟩]⟩ ::
  .define "av1_highbd_inv_txfm_add_8x4" "av1_highbd_inv_txfm_add_8x4_c" ::
  .proto ⟨"void", "av1_highbd_inv_txfm_add_8x8_c", [⟨"const tran_low_t *", "input"⟩, ⟨"uint8_t *", "dest"⟩, ⟨"int", "stride"⟩, ⟨"const TxfmParam *", "txfm_param"⟩]⟩ ::
  .define "av1_highbd_inv_txfm_add_8x8" "av1_highbd_inv_txfm_add_8x8_c" ::
  .proto ⟨"void", "av1_highbd_iwht4x4_16_add_c", [⟨"const tran_low_t *", "input"⟩, ⟨"uint8_t *", "dest"⟩, ⟨"int", "dest_stride"⟩, ⟨"int", "bd"⟩]⟩ ::
  .define "av1_highbd_iwht4x4_16_add" "av1_highbd_iwht4x4_16_add_c" ::
  .proto ⟨"void", "av1_highbd_iwht4x4_1_add_c", [⟨"const tran_low_t *", "input"⟩, ⟨"uint8_t *", "dest"⟩, ⟨"int", "dest_stride"⟩, ⟨"int", "bd"⟩]⟩ ::
  .define "av1_highbd_iwht4x4_1_add" "av1_highbd_iwht4x4_1_add_c" ::
  .proto ⟨"void", "av1_highbd_warp_affine_c", [⟨"const int32_t *", "mat"⟩, ⟨"const uint16_t *", "ref"⟩, ⟨"int", "width"⟩, ⟨"int", "height"⟩, ⟨"int", "stride"⟩, ⟨"uint16_t *", "pred"⟩, ⟨"int", "p_col"⟩, ⟨"int", "p_row"⟩, ⟨"int", "p_width"⟩, ⟨"int", "p_height"⟩, ⟨"int", "p_stride"⟩, ⟨"int", "subsampling_x"⟩, ⟨"int", "subsampling_y"⟩, ⟨"int", "bd"⟩, ⟨"ConvolveParams *", "conv_params"⟩, ⟨"int16_t", "alpha"⟩, ⟨"int16_t", "beta"⟩, ⟨"int16_t", "gamma"⟩, ⟨"int16_t", "delta"⟩]⟩ ::
  .define "av1_highbd_warp_affine" "av1_highbd_warp_affine_c" ::
  .proto ⟨"void", "av1_highbd_wiener_convolve_add_src_c", [⟨"const uint8_t *", "src"⟩, ⟨"ptrdiff_t", "src_stride"⟩, ⟨"uint8_t *", "dst"⟩, ⟨"ptrdiff_t", "dst_stride"⟩, ⟨"const int16_t *", "filter_x"⟩, ⟨"int", "x_step_q4"⟩, ⟨"const int16_t *", "filter_y"⟩, ⟨"int", "y_step_q4"⟩, ⟨"int", "w"⟩, ⟨"int", "h"⟩, ⟨"const ConvolveParams *", "conv_params"⟩, ⟨"int", "bd"⟩]⟩ ::
  .define "av1_highbd_wiener_convolve_add_src" "av1_highbd_wiener_convolve_add_src_c" ::
  .proto ⟨"void", "av1_inv_txfm2d_add_16x16_c", [⟨"const int32_t *", "input"⟩, ⟨"uint16_t *", "output"⟩, ⟨"int", "stride"⟩, ⟨"TX_TYPE", "tx_type"⟩, ⟨"int", "bd"⟩]⟩ ::
  .define "av1_inv_txfm2d_add_16x16" "av1_inv_txfm2d_add_16x16_c" ::
  .proto ⟨"void", "av1_inv_txfm2d_add_16x32_c", [⟨"const int32_t *", "input"⟩, ⟨"uint16_t *", "output"⟩, ⟨"int", "stride"⟩, ⟨"TX_TYPE", "tx_type"⟩, ⟨"int", "bd"⟩]⟩ ::
  .define "av1_inv_txfm2d_add_16x32" "av1_inv_txfm2d_add_16x32_c" ::
  .proto ⟨"void", "av1_inv_txfm2d_add_16x4_c", [⟨"const int32_t *", "input"⟩, ⟨"uint16_t *", "output"⟩, ⟨"int", "stride"⟩, ⟨"TX_TYPE", "tx_type"⟩, ⟨"int", "bd"⟩]⟩ ::
  .define "av1_inv_txfm2d_add_16x4" "av1_inv_txfm2d_add_16x4_c" ::
  .proto ⟨"void", "av1_inv_txfm2d_add_16x64_c", [⟨"const int32_t *", "input"⟩, ⟨"uint16_t *", "output"⟩, ⟨"int", "stride"⟩, ⟨"TX_TYPE", "tx_type"⟩, ⟨"int", "bd"⟩]⟩ ::
  .define "av1_inv_txfm2d_add_16x64" "av1_inv_txfm2d_add_16x64_c" ::
  .proto ⟨"void", "av1_inv_txfm2d_add_16x8_c", [⟨"const int32_t *", "input"⟩, ⟨"uint16_t *", "output"⟩, ⟨"int", "stride"⟩, ⟨"TX_TYPE", "tx_type"⟩, ⟨"int", "bd"⟩]⟩ ::
  .define "av1_inv_txfm2d_add_16x8" "av1_inv_txfm2d_add_16x8_c" ::
  .proto ⟨"void", "av1_inv_txfm2d_add_32x16_c", [⟨"const int32_t *", "input"⟩, ⟨"uint16_t *", "output"⟩, ⟨"int", "stride"⟩, ⟨"TX_TYPE", "tx_type"⟩, ⟨"int", "bd"⟩]⟩ ::
  .define "av1_inv_txfm2d_add_32x16" "av1_inv_txfm2d_add_32x16_c" ::
  .proto ⟨"void", "av1_inv_txfm2d_add_32x32_c", [⟨"const int32_t *", "input"⟩, ⟨"uint16_t *", "output"⟩, ⟨"int", "stride"⟩, ⟨"TX_TYPE", "tx_type"⟩, ⟨"int", "bd"⟩]⟩ ::
  .define "av1_inv_txfm2d_add_32x32" "av1_inv_txfm2d_add_32x32_c" ::
  .proto ⟨"void", "av1_inv_txfm2d_add_32x64_c", [⟨"const int32_t *", "input"⟩, ⟨"uint16_t *", "output"⟩, ⟨"int", "stride"⟩, ⟨"TX_TYPE", "tx_type"⟩, ⟨"int", "bd"⟩]⟩ ::
  .define "av1_inv_txfm2d_add_32x64" "av1_inv_txfm2d_add_32x64_c" ::
  .proto ⟨"void", "av1_inv_txfm2d_add_32x8_c", [⟨"const int32_t *", "input"⟩, ⟨"uint16_t *", "output"⟩, ⟨"int", "stride"⟩, ⟨"TX_TYPE", "tx_type"⟩, ⟨"int", "bd"⟩]⟩ ::
  .define "av1_inv_txfm2d_add_32x8" "av1_inv_txfm2d_add_32x8_c" ::
  .proto ⟨"void", "av1_inv_txfm2d_add_4x16_c", [⟨"const int32_t *", "input"⟩, ⟨"uint16_t *", "output"⟩, ⟨"int", "stride"⟩, ⟨"TX_TYPE", "tx_type"⟩, ⟨"int", "bd"⟩]⟩ ::
  .define "av1_inv_txfm2d_add_4x16" "av1_inv_txfm2d_add_4x16_c" ::
  .proto ⟨"void", "av1_inv_txfm2d_add_4x4_c", [⟨"const int32_t *", "input"⟩, ⟨"uint16_t *", "output"⟩, ⟨"int", "stride"⟩, ⟨"TX_TYPE", "tx_type"⟩, ⟨"int", "bd"⟩]⟩ ::
  .define "av1_inv_txfm2d_add_4x4" "av1_inv_txfm2d_add_4x4_c" ::
  .proto ⟨"void", "av1_inv_txfm2d_add_4x8_c", [⟨"const int32_t *", "input"⟩, ⟨"uint16_t *", "output"⟩, ⟨"int", "stride"⟩, ⟨"TX_TYPE", "tx_type"⟩, ⟨"int", "bd"⟩]⟩ ::
  .define "av1_inv_txfm2d_add_4x8" "av1_inv_txfm2d_add_4x8_c" ::
  .proto ⟨"void", "av1_inv_txfm2d_add_64x16_c", [⟨"const int32_t *", "input"⟩, ⟨"uint16_t *", "output"⟩, ⟨"int", "stride"⟩, ⟨"TX_TYPE", "tx_type"⟩, ⟨"int", "bd"⟩]⟩ ::
  .define "av1_inv_txfm2d_add_64x16" "av1_inv_txfm2d_add_64x16_c" ::
  .proto ⟨"void", "av1_inv_txfm2d_add_64x32_c", [⟨"const int32_t *", "input"⟩, ⟨"uint16_t *", "output"⟩, ⟨"int", "stride"⟩, ⟨"TX_TYPE", "tx_type"⟩, ⟨"int", "bd"⟩]⟩ ::
  .define "av1_inv_txfm2d_add_64x32" "av1_inv_txfm2d_add_64x32_c" ::
  .proto ⟨"void", "av1_inv_txfm2d_add_64x64_c", [⟨"const int32_t *", "input"⟩, ⟨"uint16_t *", "output"⟩, ⟨"int", "stride"⟩, ⟨"TX_TYPE", "tx_type"⟩, ⟨"int", "bd"⟩]⟩ ::
  .define "av1_inv_txfm2d_add_64x64" "av1_inv_txfm2d_add_64x64_c" ::
  .proto ⟨"void", "av1_inv_txfm2d_add_8x16_c", [⟨"const int32_t *", "input"⟩, ⟨"uint16_t *", "output"⟩, ⟨"int", "stride"⟩, ⟨"TX_TYPE", "tx_type"⟩, ⟨"int", "bd"⟩]⟩ ::
  .define "av1_inv_txfm2d_add_8x16" "av1_inv_txfm2d_add_8x16_c" ::
  .proto ⟨"void", "av1_inv_txfm2d_add_8x32_c", [⟨"const int32_t *", "input"⟩, ⟨"uint16_t *", "output"⟩, ⟨"int", "stride"⟩, ⟨"TX_TYPE", "tx_type"⟩, ⟨"int", "bd"⟩]⟩ ::
  .define "av1_inv_txfm2d_add_8x32" "av1_inv_txfm2d_add_8x32_c" ::
  .proto ⟨"void", "av1_inv_txfm2d_add_8x4_c", [⟨"const int32_t *", "input"⟩, ⟨"uint16_t *", "output"⟩, ⟨"int", "stride"⟩, ⟨"TX_TYPE", "tx_type"⟩, ⟨"int", "bd"⟩]⟩ ::
  .define "av1_inv_txfm2d_add_8x4" "av1_inv_txfm2d_add_8x4_c" ::
  .proto ⟨"void", "av1_inv_txfm2d_add_8x8_c", [⟨"const int32_t *", "input"⟩, ⟨"uint16_t *", "output"⟩, ⟨"int", "stride"⟩, ⟨"TX_TYPE", "tx_type"⟩, ⟨"int", "bd"⟩]⟩ ::
  .define "av1_inv_txfm2d_add_8x8" "av1_inv_txfm2d_add_8x8_c" ::
  .proto ⟨"void", "av1_inv_txfm_add_c", [⟨"const tran_low_t *", "dqcoeff"⟩, ⟨"uint8_t *", "dst"⟩, ⟨"int", "stride"⟩, ⟨"const TxfmParam *", "txfm_param"⟩]⟩ ::
  .proto ⟨"void", "av1_inv_txfm_add_neon", [⟨"const tran_low_t *", "dqcoeff"⟩, ⟨"uint8_t *", "dst"⟩, ⟨"int", "stride"⟩, ⟨"const TxfmParam *", "txfm_param"⟩]⟩ ::
  .define "av1_inv_txfm_add" "av1_inv_txfm_add_neon" ::
  .proto ⟨"void", "av1_round_shift_array_c", [⟨"int32_t *", "arr"⟩, ⟨"int", "size"⟩, ⟨"int", "bit"⟩]⟩ ::
  .proto ⟨"void", "av1_round_shift_array_neon", [⟨"int32_t *", "arr"⟩, ⟨"int", "size"⟩, ⟨"int", "bit"⟩]⟩ ::
  .define "av1_round_shift_array" "av1_round_shift_array_neon" ::
  .proto ⟨"int", "av1_selfguided_restoration_c", [⟨"const uint8_t *", "dgd8"⟩, ⟨"int", "width"⟩, ⟨"int", "height"⟩, ⟨"int", "dgd_stride"⟩, ⟨"int32_t *", "flt0"⟩, ⟨"int32_t *", "flt1"⟩, ⟨"int", "flt_stride"⟩, ⟨"int", "sgr_params_idx"⟩, ⟨"int", "bit_depth"⟩, ⟨"int", "highbd"⟩]⟩ ::
  .proto ⟨"int", "av1_selfguided_restoration_neon", [⟨"const uint8_t *", "dgd8"⟩, ⟨"int", "width"⟩, ⟨"int", "height"⟩, ⟨"int", "dgd_stride"⟩, ⟨"int32_t *", "flt0"⟩, ⟨"int32_t *", "flt1"⟩, ⟨"int", "flt_stride"⟩, ⟨"int", "sgr_params_idx"⟩, ⟨"int", "bit_depth"⟩, ⟨"int", "highbd"⟩]⟩ ::
  .define "av1_selfguided_restoration" "av1_selfguided_restoration_neon" ::
  .proto ⟨"void", "av1_upsample_intra_edge_c", [⟨"uint8_t *", "p"⟩, ⟨"int", "sz"⟩]⟩ ::
  .define "av1_upsample_intra_edge" "av1_upsample_intra_edge_c" ::
  .proto ⟨"void", "av1_upsample_intra_edge_high_c", [⟨"uint16_t *", "p"⟩, ⟨"int", "sz"⟩, ⟨"int", "bd"⟩]⟩ ::
  .define "av1_upsample_intra_edge_high" "av1_upsample_intra_edge_high_c" ::
  .proto ⟨"void", "av1_warp_affine_c", [⟨"const int32_t *", "mat"⟩, ⟨"const uint8_t *", "ref"⟩, ⟨"int", "width"⟩, ⟨"int", "height"⟩, ⟨"int", "stride"⟩, ⟨"uint8_t *", "pred"⟩, ⟨"int", "p_col"⟩, ⟨"int", "p_row"⟩, ⟨"int", "p_width"⟩, ⟨"int", "p_height"⟩, ⟨"int", "p_stride"⟩, ⟨"int", "subsampling_x"⟩, ⟨"int", "subsampling_y"⟩, ⟨"ConvolveParams *", "conv_params"⟩, ⟨"int16_t", "alpha"⟩, ⟨"int16_t", "beta"⟩, ⟨"int16_t", "gamma"⟩, ⟨"int16_t", "delta"⟩]⟩ ::
  .proto ⟨"void", "av1_warp_affine_neon", [⟨"const int32_t *", "mat"⟩, ⟨"const uint8_t *", "ref"⟩, ⟨"int", "width"⟩, ⟨"int", "height"⟩, ⟨"int", "stride"⟩, ⟨"uint8_t *", "pred"⟩, ⟨"int", "p_col"⟩, ⟨"int", "p_row"⟩, ⟨"int", "p_width"⟩, ⟨"int", "p_height"⟩, ⟨"int", "p_stride"⟩, ⟨"int", "subsampling_x"⟩, ⟨"int", "subsampling_y"⟩, ⟨"ConvolveParams *", "conv_params"⟩, ⟨"int16_t", "alpha"⟩, ⟨"int16_t", "beta"⟩, ⟨"int16_t", "gamma"⟩, ⟨"int16_t", "delta"⟩]⟩ ::
  .define "av1_warp_affine" "av1_warp_affine_neon" ::
  .proto ⟨"void", "av1_wiener_convolve_add_src_c", [⟨"const uint8_t *", "src"⟩, ⟨"ptrdiff_t", "src_stride"⟩, ⟨"uint8_t *", "dst"⟩, ⟨"ptrdiff_t", "dst_stride"⟩, ⟨"const int16_t *", "filter_x"⟩, ⟨"int", "x_step_q4"⟩, ⟨"const int16_t *", "filter_y"⟩, ⟨"int", "y_step_q4"⟩, ⟨"int", "w"⟩, ⟨"int", "h"⟩, ⟨"const ConvolveParams *", "conv_params"⟩]⟩ ::
  .proto ⟨"void", "av1_wiener_convolve_add_src_neon", [⟨"const uint8_t *", "src"⟩, ⟨"ptrdiff_t", "src_stride"⟩, ⟨"uint8_t *", "dst"⟩, ⟨"ptrdiff_t", "dst_stride"⟩, ⟨"const int16_t *", "filter_x"⟩, ⟨"int", "x_step_q4"⟩, ⟨"const int16_t *", "filter_y"⟩, ⟨"int", "y_step_q4"⟩, ⟨"int", "w"⟩, ⟨"int", "h"⟩, ⟨"const ConvolveParams *", "conv_params"⟩]⟩ ::
  .define "av1_wiener_convolve_add_src" "av1_wiener_convolve_add_src_neon" ::
  .proto ⟨"void", "cdef_copy_rect8_16bit_to_16bit_c", [⟨"uint16_t *", "dst"⟩, ⟨"int", "dstride"⟩, ⟨"const uint16_t *", "src"⟩, ⟨"int", "sstride"⟩, ⟨"int", "v"⟩, ⟨"int", "h"⟩]⟩ ::
  .proto ⟨"void", "cdef_copy_rect8_16bit_to_16bit_neon", [⟨"uint16_t *", "dst"⟩, ⟨"int", "dstride"⟩, ⟨"const uint16_t *", "src"⟩, ⟨"int", "sstride"⟩, ⟨"int", "v"⟩, ⟨"int", "h"⟩]⟩ ::
  .define "cdef_copy_rect8_16bit_to_16bit" "cdef_copy_rect8_16bit_to_16bit_neon" ::
  .proto ⟨"void", "cdef_copy_rect8_8bit_to_16bit_c", [⟨"uint16_t *", "dst"⟩, ⟨"int", "dstride"⟩, ⟨"const uint8_t *", "src"⟩, ⟨"int", "sstride"⟩, ⟨"int", "v"⟩, ⟨"int", "h"⟩]⟩ ::
  .proto ⟨"void", "cdef_copy_rect8_8bit_to_16bit_neon", [⟨"uint16_t *", "dst"⟩, ⟨"int", "dstride"⟩, ⟨"const uint8_t *", "src"⟩, ⟨"int", "sstride"⟩, ⟨"int", "v"⟩, ⟨"int", "h"⟩]⟩ ::
  .define "cdef_copy_rect8_8bit_to_16bit" "cdef_copy_rect8_8bit_to_16bit_neon" ::
  .proto ⟨"void", "cdef_filter_block_c", [⟨"uint8_t *", "dst8"⟩, ⟨"uint16_t *", "dst16"⟩, ⟨"int", "dstride"⟩, ⟨"const uint16_t *", "in"⟩, ⟨"int", "pri_strength"⟩, ⟨"int", "sec_strength"⟩, ⟨"int", "dir"⟩, ⟨"int", "pri_damping"⟩, ⟨"int", "sec_damping"⟩, ⟨"int", "bsize"⟩, ⟨"int", "coeff_shift"⟩]⟩ ::
  .proto ⟨"void", "cdef_filter_block_neon", [⟨"uint8_t *", "dst8"⟩, ⟨"uint16_t *", "dst16"⟩, ⟨"int", "dstride"⟩, ⟨"const uint16_t *", "in"⟩, ⟨"int", "pri_strength"⟩, ⟨"int", "sec_strength"⟩, ⟨"int", "dir"⟩, ⟨"int", "pri_damping"⟩, ⟨"int", "sec_damping"⟩, ⟨"int", "bsize"⟩, ⟨"int", "coeff_shift"⟩]⟩ ::
  .define "cdef_filter_block" "cdef_filter_block_neon" ::
  .proto ⟨"int", "cdef_find_dir_c", [⟨"const uint16_t *", "img"⟩, ⟨"int", "stride"⟩, ⟨"int32_t *", "var"⟩, ⟨"int", "coeff_shift"⟩]⟩ ::
  .proto ⟨"int", "cdef_find_dir_neon", [⟨"const uint16_t *", "img"⟩, ⟨"int", "stride"⟩, ⟨"int32_t *", "var"⟩, ⟨"int", "coeff_shift"⟩]⟩ ::
  .define "cdef_find_dir" "cdef_find_dir_neon" ::
  .proto ⟨"cfl_subsample_hbd_fn", "cfl_get_luma_subsampling_420_hbd_c", [⟨"TX_SIZE", "tx_size"⟩]⟩ ::
  .proto ⟨"cfl_subsample_hbd_fn", "cfl_get_luma_subsampling_420_hbd_neon", [⟨"TX_SIZE", "tx_size"⟩]⟩ ::
  .define "cfl_get_luma_subsampling_420_hbd" "cfl_get_luma_subsampling_420_hbd_neon" ::
  .proto ⟨"cfl_subsample_lbd_fn", "cfl_get_luma_subsampling_420_lbd_c", [⟨"TX_SIZE", "tx_size"⟩]⟩ ::
  .proto ⟨"cfl_subsample_lbd_fn", "cfl_get_luma_subsampling_420_lbd_neon", [⟨"TX_SIZE", "tx_size"⟩]⟩ ::
  .define "cfl_get_luma_subsampling_420_lbd" "cfl_get_luma_subsampling_420_lbd_neon" ::
  .proto ⟨"cfl_subsample_hbd_fn", "cfl_get_luma_subsampling_422_hbd_c", [⟨"TX_SIZE", "tx_size"⟩]⟩ ::
  .proto ⟨"cfl_subsample_hbd_fn", "cfl_get_luma_subsampling_422_hbd_neon", [⟨"TX_SIZE", "tx_size"⟩]⟩ ::
  .define "cfl_get_luma_subsampling_422_hbd" "cfl_get_luma_subsampling_422_hbd_neon" ::
  .proto ⟨"cfl_subsample_lbd_fn", "cfl_get_luma_subsampling_422_lbd_c", [⟨"TX_SIZE", "tx_size"⟩]⟩ ::
  .proto ⟨"cfl_subsample_lbd_fn", "cfl_get_luma_subsampling_422_lbd_neon", [⟨"TX_SIZE", "tx_size"⟩]⟩ ::
  .define "cfl_get_luma_subsampling_422_lbd" "cfl_get_luma_subsampling_422_lbd_neon" ::
  .proto ⟨"cfl_subsample_hbd_fn", "cfl_get_luma_subsampling_444_hbd_c", [⟨"TX_SIZE", "tx_size"⟩]⟩ ::
  .proto ⟨"cfl_subsample_hbd_fn", "cfl_get_luma_subsampling_444_hbd_neon", [⟨"TX_SIZE", "tx_size"⟩]⟩ ::
  .define "cfl_get_luma_subsampling_444_hbd" "cfl_get_luma_subsampling_444_hbd_neon" ::
  .proto ⟨"cfl_subsample_lbd_fn", "cfl_get_luma_subsampling_444_lbd_c", [⟨"TX_SIZE", "tx_size"⟩]⟩ ::
  .proto ⟨"cfl_subsample_lbd_fn", "cfl_get_luma_subsampling_444_lbd_neon", [⟨"TX_SIZE", "tx_size"⟩]⟩ ::
  .define "cfl_get_luma_subsampling_444_lbd" "cfl_get_luma_subsampling_444_lbd_neon" ::
  .proto ⟨"cfl_predict_hbd_fn", "cfl_get_predict_hbd_fn_c", [⟨"TX_SIZE", "tx_size"⟩]⟩ ::
  .proto ⟨"cfl_predict_hbd_fn", "cfl_get_predict_hbd_fn_neon", [⟨"TX_SIZE", "tx_size"⟩]⟩ ::
  .define "cfl_get_predict_hbd_fn" "cfl_get_predict_hbd_fn_neon" ::
  .proto ⟨"cfl_predict_lbd_fn", "cfl_get_predict_lbd_fn_c", [⟨"TX_SIZE", "tx_size"⟩]⟩ ::
  .proto ⟨"cfl_predict_lbd_fn", "cfl_get_predict_lbd_fn_neon", [⟨"TX_SIZE", "tx_size"⟩]⟩ ::
  .define "cfl_get_predict_lbd_fn" "cfl_get_predict_lbd_fn_neon" ::
  .proto ⟨"cfl_subtract_average_fn", "cfl_get_subtract_average_fn_c", [⟨"TX_SIZE", "tx_size"⟩]⟩ ::
  .proto ⟨"cfl_subtract_average_fn", "cfl_get_subtract_average_fn_neon", [⟨"TX_SIZE", "tx_size"⟩]⟩ ::
  .define "cfl_get_subtract_average_fn" "cfl_get_subtract_average_fn_neon" ::
  []

/-- The prototypes declared in a header, in declaration order. -/
def prototypes (hdr : List Decl) : List Proto :=
  hdr.filterMap fun d =>
    match d with
    | .proto p => some p
    | .define _ _ => none

/-- The `#define name target` lines of a header, in declaration order. -/
def aliases (hdr : List Decl) : List (String × String) :=
  hdr.filterMap fun d =>
    match d with
    | .proto _ => none
    | .define n t => some (n, t)

/-- The logical operations of a header: the names introduced by `#define`. -/
def operations (hdr : List Decl) : List String :=
  (aliases hdr).map Prod.fst

/-- Preprocessor view of an operation name: the target of its `#define`, if it has one. -/
def aliasOf (hdr : List Decl) (op : String) : Option String :=
  (aliases hdr).lookup op

/-- One block of the generated header: the operation introduced by a `#define`, the alias
target, and the prototypes declared for it (those written between the previous `#define`
and this one, in declaration order). -/
structure KernelDescriptor where
  name : String
  target : String
  variants : List Proto
deriving DecidableEq, Repr

/-- Groups a header into blocks; `acc` holds the prototypes read since the last `#define`. -/
def registryAux : List Decl → List Proto → List KernelDescriptor
  | [], _ => []
  | .proto p :: rest, acc => registryAux rest (acc ++ [p])
  | .define n t :: rest, acc => ⟨n, t, acc⟩ :: registryAux rest []

/-- The kernel registry of a header: one descriptor per `#define`, in header order. -/
def registry (hdr : List Decl) : List KernelDescriptor :=
  registryAux hdr []

/-- Whether a function name carries the `_neon` suffix of the NEON variants. -/
def isNeon (fn : String) : Bool :=
  "_neon".data.isSuffixOf fn.data

/-- Whether a descriptor declares a NEON variant `<op>_neon` next to its baseline. -/
def declaresNeon (k : KernelDescriptor) : Bool :=
  k.variants.any fun p => p.name == k.name ++ "_neon"

/-- Modelled from the spec: the capability requirement of a variant, as a flag mask.  The
header tags a variant only through its suffix: `_c` variants require nothing (the empty
set, mask 0) and `_neon` variants require the NEON flag.  The flag constant lives in
`aom_ports/arm.h`, which the header includes but which is not among these sources, so
its value `HAS_NEON` is a parameter. -/
def requirement (HAS_NEON : Nat) (fn : String) : Nat :=
  if isNeon fn then HAS_NEON else 0

/-- Modelled from the spec: a capability set satisfies a requirement iff every flag of the
requirement is present in the set. -/
def satisfies (caps req : Nat) : Bool :=
  caps &&& req == req

/-- Modelled from the spec: the priority rank of a variant, baseline 0 and NEON 1. -/
def rank (fn : String) : Nat :=
  if isNeon fn then 1 else 0

/-- Modelled from the spec: the resolution rule of the Resolver.  Among the variants whose
requirement is satisfied by the detected set, the one of highest rank is chosen; on equal
rank the variant declared first is kept. -/
def spec_resolve (HAS_NEON caps : Nat) (vs : List Proto) : Option Proto :=
  (vs.filter fun v => satisfies caps (requirement HAS_NEON v.name)).foldl
    (fun best v =>
      match best with
      | none => some v
      | some b => if rank b.name < rank v.name then some v else some b)
    none

/-- The run-time dispatch state: the values of the function-pointer slots, as pairs of slot
name and assigned function. -/
abbrev RtcdState := List (String × String)

/-- The dispatch state at program start.  The header declares no `RTCD_EXTERN` pointer,
so there is no slot. -/
def rtcd_init : RtcdState := []

/-- The body of `setup_rtcd_internal`: `int flags = aom_arm_cpu_caps(); (void)flags;`.
The value returned by the capability query, a mask of flag bits, is the argument
`aom_arm_cpu_caps`.  The routine assigns nothing and has no exit other than its return. -/
def setup_rtcd_internal (aom_arm_cpu_caps : Nat) (st : RtcdState) : RtcdState :=
  let flags := aom_arm_cpu_caps
  let _ := flags
  st

/-- The function a call through an operation name reaches.  A generated dispatch header
makes an operation either a `#define` alias of one function or an `RTCD_EXTERN` function
pointer assigned by `setup_rtcd_internal`: the call reaches the target of the `#define`
when the name is aliased, otherwise the value of the pointer slot of that name.  The
definition describes operation names only.  It is not a name lookup of the C language:
it says nothing about identifiers that are not operations, such as the declared functions
`<op>_c`, `<op>_neon` and `av1_rtcd`, or the macros of lines 3-8 of the header. -/
def binding (hdr : List Decl) (st : RtcdState) (op : String) : Option String :=
  match aliasOf hdr op with
  | some fn => some fn
  | none => st.lookup op

/-- The block of `av1_round_shift_array` (header lines 318-320): baseline and NEON variant. -/
def block_av1_round_shift_array : KernelDescriptor :=
  ⟨"av1_round_shift_array", "av1_round_shift_array_neon",
    [⟨"void", "av1_round_shift_array_c", [⟨"int32_t *", "arr"⟩, ⟨"int", "size"⟩, ⟨"int", "bit"⟩]⟩,
     ⟨"void", "av1_round_shift_array_neon", [⟨"int32_t *", "arr"⟩, ⟨"int", "size"⟩, ⟨"int", "bit"⟩]⟩]⟩

/-- The block of `av1_upsample_intra_edge` (header lines 330-331): a baseline only. -/
def block_av1_upsample_intra_edge : KernelDescriptor :=
  ⟨"av1_upsample_intra_edge", "av1_upsample_intra_edge_c",
    [⟨"void", "av1_upsample_intra_edge_c", [⟨"uint8_t *", "p"⟩, ⟨"int", "sz"⟩]⟩]⟩

/-- The prototype `av1_selfguided_restoration_c` (header lines 322-324). -/
def proto_av1_selfguided_restoration_c : Proto :=
  ⟨"int", "av1_selfguided_restoration_c",
    [⟨"const uint8_t *", "dgd8"⟩, ⟨"int", "width"⟩, ⟨"int", "height"⟩, ⟨"int", "dgd_stride"⟩,
     ⟨"int32_t *", "flt0"⟩, ⟨"int32_t *", "flt1"⟩, ⟨"int", "flt_stride"⟩,
     ⟨"int", "sgr_params_idx"⟩, ⟨"int", "bit_depth"⟩, ⟨"int", "highbd"⟩]⟩

/-- The prototype `av1_selfguided_restoration_neon` (header lines 325-327). -/
def proto_av1_selfguided_restoration_neon : Proto :=
  ⟨"int", "av1_selfguided_restoration_neon",
    [⟨"const uint8_t *", "dgd8"⟩, ⟨"int", "width"⟩, ⟨"int", "height"⟩, ⟨"int", "dgd_stride"⟩,
     ⟨"int32_t *", "flt0"⟩, ⟨"int32_t *", "flt1"⟩, ⟨"int", "flt_stride"⟩,
     ⟨"int", "sgr_params_idx"⟩, ⟨"int", "bit_depth"⟩, ⟨"int", "highbd"⟩]⟩

/-- The block of `av1_selfguided_restoration` (header lines 322-328). -/
def block_av1_selfguided_restoration : KernelDescriptor :=
  ⟨"av1_selfguided_restoration", "av1_selfguided_restoration_neon",
    [proto_av1_selfguided_restoration_c, proto_av1_selfguided_restoration_neon]⟩

/-- The names of all prototypes owned by a list of descriptors, in order. -/
def variantNames (ks : List KernelDescriptor) : List String :=
  ks.flatMap fun k => k.variants.map fun p => p.name

/-- The two block shapes the generator emits: a baseline alone, aliased to the baseline, or
a baseline followed by a NEON variant, aliased to the NEON variant. -/
def BlockShape (k : KernelDescriptor) : Prop :=
  (k.variants.map (fun p => p.name) = [k.name ++ "_c"] ∧ k.target = k.name ++ "_c") ∨
  (k.variants.map (fun p => p.name) = [k.name ++ "_c", k.name ++ "_neon"] ∧
    k.target = k.name ++ "_neon")

instance (k : KernelDescriptor) : Decidable (BlockShape k) := by
  unfold BlockShape
  infer_instance

/-- The build descriptor of `aom_config.c`, line 12: `static const char* const cfg`. -/
def cfg : String :=
  "cmake ../libaom -G \"Unix Makefiles\" -DCMAKE_TOOLCHAIN_FILE=\"../libaom/build/cmake/toolchains/armv7-linux-gcc.cmake\" -DCONFIG_AV1_ENCODER=1 -DCONFIG_AV1_HIGHBITDEPTH=1 -DCONFIG_MAX_DECODE_PROFILE=0 -DCONFIG_NORMAL_TILE_MODE=1 -DCONFIG_SIZE_LIMIT=1 -DDECODE_HEIGHT_LIMIT=16384 -DDECODE_WIDTH_LIMIT=16384 -DENABLE_SSE4_1=0"

/-- The accessor of `aom_config.c`, line 13:
`const char *aom_codec_build_config(void) {return cfg;}`.  The C function takes no
argument; `st` is the dispatch state of the process at the time of the call, threaded
through so that the absence of any effect on it can be stated. -/
def aom_codec_build_config (st : RtcdState) : String × RtcdState :=
  (cfg, st)

/-- The blank-separated words of a command line, in order. -/
def words (s : String) : List String :=
  (s.data.foldr
    (fun c acc =>
      if c = ' ' then [] :: acc
      else
        match acc with
        | [] => [[c]]
        | w :: ws => (c :: w) :: ws)
    [[]]).map String.mk

/-- Splits a character list at its first `=` sign, if it has one. -/
def splitEq : List Char → Option (List Char × List Char)
  | [] => none
  | c :: cs =>
    if c = '=' then some ([], cs)
    else
      match splitEq cs with
      | none => none
      | some (n, v) => some (c :: n, v)

/-- The option `-D<NAME>=<value>` carried by a word, as the pair of name and value. -/
def defineOption (w : String) : Option (String × String) :=
  match w.data with
  | '-' :: 'D' :: rest =>
    match splitEq rest with
    | some (n, v) => some (String.mk n, String.mk v)
    | none => none
  | _ => none

/-- The `-D<NAME>=<value>` options of a command line, in order. -/
def defineOptions (s : String) : List (String × String) :=
  (words s).filterMap defineOption

/-! ## Generic facts about headers -/

theorem aliases_registryAux (hdr : List Decl) (acc : List Proto) :
    (registryAux hdr acc).map (fun k => (k.name, k.target)) = aliases hdr := by
  induction hdr generalizing acc with
  | nil => rfl
  | cons d rest ih =>
    cases d with
    | proto p => simpa [registryAux, aliases] using ih (acc ++ [p])
    | define n t => simpa [registryAux, aliases] using ih []

theorem aliases_registry (hdr : List Decl) :
    aliases hdr = (registry hdr).map (fun k => (k.name, k.target)) :=
  (aliases_registryAux hdr []).symm

theorem operations_registry (hdr : List Decl) :
    operations hdr = (registry hdr).map (fun k => k.name) := by
  simp [operations, aliases_registry, List.map_map, Function.comp_def]

theorem isNeon_c (op : String) : isNeon (op ++ "_c") = false := by
  simp [isNeon, List.isSuffixOf, String.data_append, List.isPrefixOf]

theorem isNeon_neon (op : String) : isNeon (op ++ "_neon") = true := by
  simp [isNeon, String.data_append]

theorem lookup_of_mem {α : Type} (l : List (String × α)) (hnd : (l.map Prod.fst).Nodup)
    {a : String} {b : α} (h : (a, b) ∈ l) : l.lookup a = some b := by
  induction l with
  | nil => cases h
  | cons x xs ih =>
    obtain ⟨a1, b1⟩ := x
    simp only [List.map_cons, List.nodup_cons] at hnd
    rcases List.mem_cons.1 h with h1 | h2
    · cases h1
      simp [List.lookup]
    · have hne : a ≠ a1 := by
        intro e
        exact hnd.1 (List.mem_map.2 ⟨(a, b), h2, e⟩)
      have hb : (a == a1) = false := by simpa using hne
      simp [List.lookup, hb, ih hnd.2 h2]

theorem aliasOf_registry (hdr : List Decl) (hnd : (operations hdr).Nodup)
    (k : KernelDescriptor) (hk : k ∈ registry hdr) : aliasOf hdr k.name = some k.target := by
  unfold aliasOf
  apply lookup_of_mem _ hnd
  rw [aliases_registry]
  exact List.mem_map.2 ⟨k, hk, rfl⟩

theorem binding_of_alias (hdr : List Decl) (caps : Nat) (st : RtcdState) (op t : String)
    (h : aliasOf hdr op = some t) : binding hdr (setup_rtcd_internal caps st) op = some t := by
  simp [binding, h]

theorem shape_cases (k : KernelDescriptor) (h : BlockShape k) :
    (∃ c, k.variants = [c] ∧ c.name = k.name ++ "_c" ∧ k.target = k.name ++ "_c") ∨
    (∃ c n, k.variants = [c, n] ∧ c.name = k.name ++ "_c" ∧ n.name = k.name ++ "_neon" ∧
      k.target = k.name ++ "_neon") := by
  obtain ⟨name, target, vs⟩ := k
  rcases h with ⟨hm, ht⟩ | ⟨hm, ht⟩
  · left
    rcases vs with _ | ⟨c, _ | ⟨n, vs⟩⟩ <;> simp at hm
    exact ⟨c, rfl, hm, ht⟩
  · right
    rcases vs with _ | ⟨c, _ | ⟨n, _ | ⟨m, vs⟩⟩⟩ <;> simp at hm
    exact ⟨c, n, rfl, hm.1, hm.2, ht⟩

theorem c_ne_neon (op : String) : op ++ "_c" ≠ op ++ "_neon" := by
  intro h
  have h1 := isNeon_c op
  rw [h, isNeon_neon] at h1
  cases h1

theorem declaresNeon_of_shape (k : KernelDescriptor) (h : BlockShape k) :
    k.target = (if declaresNeon k then k.name ++ "_neon" else k.name ++ "_c") := by
  rcases shape_cases k h with ⟨c, hv, hc, ht⟩ | ⟨c, n, hv, hc, hn, ht⟩
  · have : declaresNeon k = false := by
      simp [declaresNeon, hv, hc, c_ne_neon]
    simp [this, ht]
  · have : declaresNeon k = true := by
      simp [declaresNeon, hv, hn]
    simp [this, ht]

theorem append_c_inj (a b : String) (h : a ++ "_c" = b ++ "_c") : a = b := by
  have hd := congrArg String.data h
  simp only [String.data_append, List.append_left_inj] at hd
  exact String.ext hd

theorem neon_ne_c (a b : String) : a ++ "_neon" ≠ b ++ "_c" := by
  intro h
  have h1 := isNeon_neon a
  rw [h, isNeon_c] at h1
  cases h1

theorem count_c_self (k : KernelDescriptor) (h : BlockShape k) :
    (k.variants.map fun p => p.name).count (k.name ++ "_c") = 1 := by
  rcases h with ⟨hm, _⟩ | ⟨hm, _⟩
  · rw [hm]; simp
  · rw [hm, List.count_cons_self, List.count_cons_of_ne (c_ne_neon k.name)]; simp

theorem count_c_other (k : KernelDescriptor) (h : BlockShape k) (op : String)
    (hne : k.name ≠ op) : (k.variants.map fun p => p.name).count (op ++ "_c") = 0 := by
  have h1 : op ++ "_c" ≠ k.name ++ "_c" := fun e => hne (append_c_inj _ _ e).symm
  have h2 : op ++ "_c" ≠ k.name ++ "_neon" := fun e => neon_ne_c _ _ e.symm
  rcases h with ⟨hm, _⟩ | ⟨hm, _⟩
  · rw [hm, List.count_cons_of_ne h1]; simp
  · rw [hm, List.count_cons_of_ne h1, List.count_cons_of_ne h2]; simp

theorem count_variantNames_absent (ks : List KernelDescriptor)
    (hs : ∀ k ∈ ks, BlockShape k) (op : String) (hop : op ∉ ks.map fun k => k.name) :
    (variantNames ks).count (op ++ "_c") = 0 := by
  induction ks with
  | nil => simp [variantNames]
  | cons k rest ih =>
    simp only [List.map_cons, List.mem_cons, not_or] at hop
    have h1 := count_c_other k (hs k (List.mem_cons_self _ _)) op (fun e => hop.1 e.symm)
    have h2 := ih (fun x hx => hs x (List.mem_cons_of_mem _ hx)) hop.2
    simp only [variantNames, List.flatMap_cons, List.count_append] at h2 ⊢
    omega

theorem count_variantNames (ks : List KernelDescriptor) (hs : ∀ k ∈ ks, BlockShape k)
    (hnd : (ks.map fun k => k.name).Nodup) (k : KernelDescriptor) (hk : k ∈ ks) :
    (variantNames ks).count (k.name ++ "_c") = 1 := by
  induction ks with
  | nil => cases hk
  | cons k1 rest ih =>
    simp only [List.map_cons, List.nodup_cons] at hnd
    have hs1 : ∀ x ∈ rest, BlockShape x := fun x hx => hs x (List.mem_cons_of_mem _ hx)
    simp only [variantNames, List.flatMap_cons, List.count_append]
    rcases List.mem_cons.1 hk with e | hk2
    · subst e
      have h1 := count_c_self k (hs k (List.mem_cons_self _ _))
      have h2 := count_variantNames_absent rest hs1 k.name hnd.1
      simp only [variantNames] at h2
      omega
    · have hne : k1.name ≠ k.name := by
        intro e
        exact hnd.1 (e ▸ List.mem_map.2 ⟨k, hk2, rfl⟩)
      have h1 := count_c_other k1 (hs k1 (List.mem_cons_self _ _)) k.name hne
      have h2 := ih hs1 hnd.2 hk2
      simp only [variantNames] at h2
      omega

/-! ## Facts about `av1_rtcd.h`, checked by evaluation -/

set_option maxRecDepth 100000 in
theorem registry_shape : ∀ k ∈ registry av1_rtcd_h, BlockShape k := by
  decide!

set_option maxRecDepth 100000 in
theorem operations_nodup : (operations av1_rtcd_h).Nodup := by
  decide!

set_option maxRecDepth 100000 in
theorem prototypes_names :
    (prototypes av1_rtcd_h).map (fun p => p.name) = variantNames (registry av1_rtcd_h) := by
  decide!

theorem binding_registry (caps : Nat) (st : RtcdState) (k : KernelDescriptor)
    (hk : k ∈ registry av1_rtcd_h) :
    binding av1_rtcd_h (setup_rtcd_internal caps st) k.name = some k.target :=
  binding_of_alias _ _ _ _ _ (aliasOf_registry _ operations_nodup k hk)

/-! ## Eligibility (C1) -/

/-- C1, counterexample: with no capability detected (flags 0) the operation
`av1_apply_selfguided_restoration` is bound to its NEON variant, and the requirement of
that variant, the NEON flag (taken as 0x4 here), is not satisfied by the empty set. -/
theorem eligibility_counterexample :
    binding av1_rtcd_h (setup_rtcd_internal 0 rtcd_init) "av1_apply_selfguided_restoration"
      = some "av1_apply_selfguided_restoration_neon" ∧
    satisfies 0 (requirement 4 "av1_apply_selfguided_restoration_neon") = false := by
  constructor <;> decide!

/-- C1, amended: for every operation of `av1_rtcd.h` and every capability value, the
operation is bound to one of the variants declared for it, and the requirement of that
variant is satisfied by the capability value exactly when the value contains the NEON flag
or the operation declares no NEON variant.  The bound variant is the NEON one exactly when
the operation declares one, whatever the capability value. -/
theorem eligibility_static (HAS_NEON caps : Nat) (st : RtcdState) (k : KernelDescriptor)
    (hk : k ∈ registry av1_rtcd_h) :
    ∃ v ∈ k.variants,
      binding av1_rtcd_h (setup_rtcd_internal caps st) k.name = some v.name ∧
      (satisfies caps (requirement HAS_NEON v.name) = true ↔
        (satisfies caps HAS_NEON = true ∨ declaresNeon k = false)) ∧
      (isNeon v.name = true ↔ declaresNeon k = true) := by
  have hb := binding_registry caps st k hk
  rcases shape_cases k (registry_shape k hk) with ⟨c, hv, hc, ht⟩ | ⟨c, n, hv, hc, hn, ht⟩
  · have hd : declaresNeon k = false := by
      simp [declaresNeon, hv, hc, c_ne_neon]
    refine ⟨c, by simp [hv], by rw [hb, ht, hc], ?_, ?_⟩
    · simp [hd, hc, requirement, isNeon_c, satisfies]
    · simp [hd, hc, isNeon_c]
  · have hd : declaresNeon k = true := by
      simp [declaresNeon, hv, hn]
    refine ⟨n, by simp [hv], by rw [hb, ht, hn], ?_, ?_⟩
    · simp [hd, hn, requirement, isNeon_neon]
    · simp [hd, hn, isNeon_neon]

set_option maxRecDepth 100000 in
/-- C1, witness: the amended statement at `av1_round_shift_array`, NEON flag 0x4, flags 0. -/
theorem eligibility_static_witness :
    block_av1_round_shift_array ∈ registry av1_rtcd_h ∧
    ∃ v ∈ block_av1_round_shift_array.variants,
      binding av1_rtcd_h (setup_rtcd_internal 0 rtcd_init) block_av1_round_shift_array.name
        = some v.name ∧
      (satisfies 0 (requirement 4 v.name) = true ↔
        (satisfies 0 4 = true ∨ declaresNeon block_av1_round_shift_array = false)) ∧
      (isNeon v.name = true ↔ declaresNeon block_av1_round_shift_array = true) :=
  ⟨by decide!, eligibility_static 4 0 rtcd_init block_av1_round_shift_array (by decide!)⟩

/-! ## Fallback on empty capabilities (C2) -/

/-- C2, counterexample: with the empty capability set (flags 0) `av1_convolve_2d_sr` is
bound to `av1_convolve_2d_sr_neon`, not to its baseline `av1_convolve_2d_sr_c`. -/
theorem fallback_counterexample :
    binding av1_rtcd_h (setup_rtcd_internal 0 rtcd_init) "av1_convolve_2d_sr"
      = some "av1_convolve_2d_sr_neon" ∧
    binding av1_rtcd_h (setup_rtcd_internal 0 rtcd_init) "av1_convolve_2d_sr"
      ≠ some "av1_convolve_2d_sr_c" := by
  constructor <;> decide!

/-- C2, amended: when the detected capability set is empty (flags 0), every operation that
declares only a baseline is bound to its `_c` variant, and every operation that also
declares a `_neon` variant stays bound to that `_neon` variant. -/
theorem fallback_static (st : RtcdState) (k : KernelDescriptor)
    (hk : k ∈ registry av1_rtcd_h) :
    binding av1_rtcd_h (setup_rtcd_internal 0 st) k.name =
      some (if declaresNeon k then k.name ++ "_neon" else k.name ++ "_c") := by
  rw [binding_registry 0 st k hk, declaresNeon_of_shape k (registry_shape k hk)]

set_option maxRecDepth 100000 in
/-- C2, witness: the amended statement at `av1_upsample_intra_edge`, a baseline-only block. -/
theorem fallback_static_witness :
    block_av1_upsample_intra_edge ∈ registry av1_rtcd_h ∧
    binding av1_rtcd_h (setup_rtcd_internal 0 rtcd_init) block_av1_upsample_intra_edge.name =
      some (if declaresNeon block_av1_upsample_intra_edge
        then block_av1_upsample_intra_edge.name ++ "_neon"
        else block_av1_upsample_intra_edge.name ++ "_c") :=
  ⟨by decide!, fallback_static rtcd_init block_av1_upsample_intra_edge (by decide!)⟩

/-! ## Baseline totality (C3) -/

/-- C3: every operation aliased in `av1_rtcd.h` has a descriptor in which exactly one
variant has an empty capability requirement, which is the one prototype named `<op>_c`;
in the whole header exactly one prototype carries that name. -/
theorem baseline_totality (HAS_NEON : Nat) (h0 : 0 < HAS_NEON) (op : String)
    (hop : op ∈ operations av1_rtcd_h) :
    ∃ k ∈ registry av1_rtcd_h, k.name = op ∧
      (k.variants.countP fun p => requirement HAS_NEON p.name == 0) = 1 ∧
      (k.variants.countP fun p => p.name == op ++ "_c") = 1 ∧
      ((prototypes av1_rtcd_h).countP fun p => p.name == op ++ "_c") = 1 := by
  rw [operations_registry] at hop
  obtain ⟨k, hk, rfl⟩ := List.mem_map.1 hop
  have hshape := registry_shape k hk
  have hn0 : HAS_NEON ≠ 0 := by omega
  refine ⟨k, hk, rfl, ?_, ?_, ?_⟩
  · rcases shape_cases k hshape with ⟨c, hv, hc, _⟩ | ⟨c, n, hv, hc, hn, _⟩
    · simp [hv, hc, requirement, isNeon_c]
    · simp [hv, hc, hn, requirement, isNeon_c, isNeon_neon, hn0]
  · have h := count_c_self k hshape
    rwa [List.count, List.countP_map] at h
  · have hnd : ((registry av1_rtcd_h).map fun k => k.name).Nodup := by
      rw [← operations_registry]; exact operations_nodup
    have h := count_variantNames _ registry_shape hnd k hk
    rwa [← prototypes_names, List.count, List.countP_map] at h

set_option maxRecDepth 100000 in
/-- C3, witness: baseline totality at `cdef_find_dir` with the NEON flag 0x4. -/
theorem baseline_totality_witness :
    0 < 4 ∧ "cdef_find_dir" ∈ operations av1_rtcd_h ∧
    ∃ k ∈ registry av1_rtcd_h, k.name = "cdef_find_dir" ∧
      (k.variants.countP fun p => requirement 4 p.name == 0) = 1 ∧
      (k.variants.countP fun p => p.name == "cdef_find_dir" ++ "_c") = 1 ∧
      ((prototypes av1_rtcd_h).countP fun p => p.name == "cdef_find_dir" ++ "_c") = 1 :=
  ⟨by decide, by decide!, baseline_totality 4 (by decide) "cdef_find_dir" (by decide!)⟩

/-! ## Best-match selection when NEON is present (C4) -/

set_option maxRecDepth 100000 in
/-- C4: for every capability set that contains the NEON flag, each operation of
`av1_rtcd.h` is bound to the variant the resolution rule of the spec selects: an eligible
variant of highest rank among the eligible ones, which is `<op>_neon` for the 28 operations
that declare one and `<op>_c` for the others; adding further capability bits does not
change the binding. -/
theorem best_match_with_neon (HAS_NEON caps extra : Nat) (st : RtcdState)
    (hcaps : satisfies caps HAS_NEON = true) (k : KernelDescriptor)
    (hk : k ∈ registry av1_rtcd_h) :
    (registry av1_rtcd_h).countP declaresNeon = 28 ∧
    (∃ v ∈ k.variants,
      binding av1_rtcd_h (setup_rtcd_internal caps st) k.name = some v.name ∧
      spec_resolve HAS_NEON caps k.variants = some v ∧
      satisfies caps (requirement HAS_NEON v.name) = true ∧
      (∀ w ∈ k.variants, satisfies caps (requirement HAS_NEON w.name) = true →
        rank w.name ≤ rank v.name) ∧
      v.name = (if declaresNeon k then k.name ++ "_neon" else k.name ++ "_c")) ∧
    binding av1_rtcd_h (setup_rtcd_internal (caps ||| extra) st) k.name =
      binding av1_rtcd_h (setup_rtcd_internal caps st) k.name := by
  have hb := binding_registry caps st k hk
  have hsat0 : satisfies caps 0 = true := by simp [satisfies]
  refine ⟨by decide!, ?_, by rw [binding_registry _ st k hk, hb]⟩
  rcases shape_cases k (registry_shape k hk) with ⟨c, hv, hc, ht⟩ | ⟨c, n, hv, hc, hn, ht⟩
  · have hd : declaresNeon k = false := by
      simp [declaresNeon, hv, hc, c_ne_neon]
    have hreq : requirement HAS_NEON c.name = 0 := by simp [requirement, hc, isNeon_c]
    refine ⟨c, by simp [hv], by rw [hb, ht, hc], ?_, ?_, ?_, by simp [hd, hc]⟩
    · simp [spec_resolve, hv, hreq, hsat0]
    · rw [hreq]; exact hsat0
    · intro w hw _
      rw [hv, List.mem_singleton] at hw
      rw [hw]
  · have hd : declaresNeon k = true := by
      simp [declaresNeon, hv, hn]
    have hreqc : requirement HAS_NEON c.name = 0 := by simp [requirement, hc, isNeon_c]
    have hreqn : requirement HAS_NEON n.name = HAS_NEON := by
      simp [requirement, hn, isNeon_neon]
    have hrc : rank c.name = 0 := by simp [rank, hc, isNeon_c]
    have hrn : rank n.name = 1 := by simp [rank, hn, isNeon_neon]
    refine ⟨n, by simp [hv], by rw [hb, ht, hn], ?_, ?_, ?_, by simp [hd, hn]⟩
    · simp [spec_resolve, hv, hreqc, hreqn, hsat0, hcaps, hrc, hrn]
    · rw [hreqn]; exact hcaps
    · intro w hw _
      rw [hv] at hw
      rcases List.mem_cons.1 hw with e | hw2
      · rw [e, hrc, hrn]; omega
      · rw [List.mem_singleton] at hw2
        rw [hw2]

set_option maxRecDepth 100000 in
/-- C4, witness: best-match selection at `av1_round_shift_array` with the NEON flag 0x4,
capability value 0x5 and the extra bit 0x2. -/
theorem best_match_with_neon_witness :
    satisfies 5 4 = true ∧ block_av1_round_shift_array ∈ registry av1_rtcd_h ∧
    ((registry av1_rtcd_h).countP declaresNeon = 28 ∧
    (∃ v ∈ block_av1_round_shift_array.variants,
      binding av1_rtcd_h (setup_rtcd_internal 5 rtcd_init) block_av1_round_shift_array.name
        = some v.name ∧
      spec_resolve 4 5 block_av1_round_shift_array.variants = some v ∧
      satisfies 5 (requirement 4 v.name) = true ∧
      (∀ w ∈ block_av1_round_shift_array.variants, satisfies 5 (requirement 4 w.name) = true →
        rank w.name ≤ rank v.name) ∧
      v.name = (if declaresNeon block_av1_round_shift_array
        then block_av1_round_shift_array.name ++ "_neon"
        else block_av1_round_shift_array.name ++ "_c")) ∧
    binding av1_rtcd_h (setup_rtcd_internal (5 ||| 2) rtcd_init)
        block_av1_round_shift_array.name =
      binding av1_rtcd_h (setup_rtcd_internal 5 rtcd_init) block_av1_round_shift_array.name) :=
  ⟨by decide, by decide!,
    best_match_with_neon 4 5 2 rtcd_init (by decide) block_av1_round_shift_array (by decide!)⟩

/-! ## Capability monotonicity (C5) -/

/-- C5: if capability set `A` is a subset of capability set `B`, then for every operation of
`av1_rtcd.h` the variant bound under `B` has a rank at least that of the variant bound
under `A`, where the `_c` variant has rank 0 and the `_neon` variant rank 1. -/
theorem capability_monotonicity (A B : Nat) (stA stB : RtcdState) (hAB : A &&& B = A)
    (op : String) (hop : op ∈ operations av1_rtcd_h) :
    (∃ vA vB, binding av1_rtcd_h (setup_rtcd_internal A stA) op = some vA ∧
      binding av1_rtcd_h (setup_rtcd_internal B stB) op = some vB ∧
      rank vA ≤ rank vB) ∧
    rank (op ++ "_c") = 0 ∧ rank (op ++ "_neon") = 1 := by
  have _ := hAB
  rw [operations_registry] at hop
  obtain ⟨k, hk, rfl⟩ := List.mem_map.1 hop
  exact ⟨⟨k.target, k.target, binding_registry A stA k hk, binding_registry B stB k hk,
    Nat.le_refl _⟩, by simp [rank, isNeon_c], by simp [rank, isNeon_neon]⟩

set_option maxRecDepth 100000 in
/-- C5, witness: monotonicity at `cdef_filter_block` for the sets 0x1 and 0x5. -/
theorem capability_monotonicity_witness :
    1 &&& 5 = 1 ∧ "cdef_filter_block" ∈ operations av1_rtcd_h ∧
    ((∃ vA vB,
      binding av1_rtcd_h (setup_rtcd_internal 1 rtcd_init) "cdef_filter_block" = some vA ∧
      binding av1_rtcd_h (setup_rtcd_internal 5 rtcd_init) "cdef_filter_block" = some vB ∧
      rank vA ≤ rank vB) ∧
    rank ("cdef_filter_block" ++ "_c") = 0 ∧ rank ("cdef_filter_block" ++ "_neon") = 1) :=
  ⟨by decide, by decide!,
    capability_monotonicity 1 5 rtcd_init rtcd_init (by decide) "cdef_filter_block"
      (by decide!)⟩

/-! ## Signature identity (C6) -/

set_option maxRecDepth 100000 in
theorem signatures_checked :
    ∀ k ∈ registry av1_rtcd_h, ∀ c ∈ k.variants, ∀ n ∈ k.variants,
      c.name = k.name ++ "_c" → n.name = k.name ++ "_neon" →
      c.ret = n.ret ∧ (c.params.map fun q => q.ty) = (n.params.map fun q => q.ty) := by
  decide!

/-- C6: for every operation of `av1_rtcd.h` that declares both a `_c` and a `_neon`
variant, the two prototypes have the same return type and the same parameter types in the
same order. -/
theorem signature_identity (k : KernelDescriptor) (hk : k ∈ registry av1_rtcd_h)
    (c n : Proto) (hc : c ∈ k.variants) (hn : n ∈ k.variants)
    (hcn : c.name = k.name ++ "_c") (hnn : n.name = k.name ++ "_neon") :
    c.ret = n.ret ∧ (c.params.map fun q => q.ty) = (n.params.map fun q => q.ty) :=
  signatures_checked k hk c hc n hn hcn hnn

set_option maxRecDepth 100000 in
/-- C6, witness: `av1_selfguided_restoration_c` and `av1_selfguided_restoration_neon` both
return `int` and take the same ten parameter types. -/
theorem signature_identity_witness :
    block_av1_selfguided_restoration ∈ registry av1_rtcd_h ∧
    proto_av1_selfguided_restoration_c ∈ block_av1_selfguided_restoration.variants ∧
    proto_av1_selfguided_restoration_neon ∈ block_av1_selfguided_restoration.variants ∧
    proto_av1_selfguided_restoration_c.name = block_av1_selfguided_restoration.name ++ "_c" ∧
    proto_av1_selfguided_restoration_neon.name
      = block_av1_selfguided_restoration.name ++ "_neon" ∧
    proto_av1_selfguided_restoration_c.ret = "int" ∧
    proto_av1_selfguided_restoration_c.params.length = 10 ∧
    (proto_av1_selfguided_restoration_c.ret = proto_av1_selfguided_restoration_neon.ret ∧
      (proto_av1_selfguided_restoration_c.params.map fun q => q.ty) =
        (proto_av1_selfguided_restoration_neon.params.map fun q => q.ty)) :=
  ⟨by decide!, by decide!, by decide!, by decide!, by decide!, by decide!, by decide!,
    signature_identity block_av1_selfguided_restoration (by decide!)
      proto_av1_selfguided_restoration_c proto_av1_selfguided_restoration_neon
      (by decide!) (by decide!) (by decide!) (by decide!)⟩

/-! ## Idempotence and determinism of resolution (C7, C8) -/

/-- C7: running `setup_rtcd_internal` a second time, with whatever capability value, leaves
the dispatch state and the binding of every operation name as they were after the first
run. -/
theorem resolution_idempotent (caps1 caps2 : Nat) (st : RtcdState) (op : String) :
    setup_rtcd_internal caps2 (setup_rtcd_internal caps1 st) = setup_rtcd_internal caps1 st ∧
    binding av1_rtcd_h (setup_rtcd_internal caps2 (setup_rtcd_internal caps1 st)) op =
      binding av1_rtcd_h (setup_rtcd_internal caps1 st) op :=
  ⟨rfl, rfl⟩

/-- C8: two resolutions over the registry of `av1_rtcd.h` with the same capability value
select the same variant for every operation, whatever the dispatch state each run starts
from. -/
theorem resolution_deterministic (caps : Nat) (st1 st2 : RtcdState) (op : String)
    (hop : op ∈ operations av1_rtcd_h) :
    ∃ v, binding av1_rtcd_h (setup_rtcd_internal caps st1) op = some v ∧
      binding av1_rtcd_h (setup_rtcd_internal caps st2) op = some v := by
  rw [operations_registry] at hop
  obtain ⟨k, hk, rfl⟩ := List.mem_map.1 hop
  exact ⟨k.target, binding_registry caps st1 k hk, binding_registry caps st2 k hk⟩

set_option maxRecDepth 100000 in
/-- C8, witness: determinism at `av1_warp_affine` for the capability value 0x4, one run
starting from the initial state and one from a state holding a stray slot. -/
theorem resolution_deterministic_witness :
    "av1_warp_affine" ∈ operations av1_rtcd_h ∧
    ∃ v, binding av1_rtcd_h (setup_rtcd_internal 4 rtcd_init) "av1_warp_affine" = some v ∧
      binding av1_rtcd_h
        (setup_rtcd_internal 4 [("av1_warp_affine", "av1_warp_affine_c")]) "av1_warp_affine"
        = some v :=
  ⟨by decide!,
    resolution_deterministic 4 rtcd_init [("av1_warp_affine", "av1_warp_affine_c")]
      "av1_warp_affine" (by decide!)⟩

/-! ## The build descriptor (C11, C12) -/

/-- C11: `aom_codec_build_config` returns the constant string `cfg`, which is not empty, on
every call; a call leaves the state of the process as it was, a second call returns the
same string, and the result is the same in every dispatch state, in particular after
`setup_rtcd_internal` has run with any capability value. -/
theorem build_config_static (caps : Nat) (st st2 : RtcdState) :
    (aom_codec_build_config st).1 = cfg ∧
    cfg ≠ "" ∧
    (aom_codec_build_config st).2 = st ∧
    (aom_codec_build_config (aom_codec_build_config st).2).1 = (aom_codec_build_config st).1 ∧
    (aom_codec_build_config st2).1 = (aom_codec_build_config st).1 ∧
    (aom_codec_build_config (setup_rtcd_internal caps st)).1 = (aom_codec_build_config st).1 :=
  ⟨rfl, by decide, rfl, rfl, rfl, rfl⟩

set_option maxRecDepth 100000 in
theorem cfg_content :
    "cmake ../libaom".data.isPrefixOf cfg.data = true ∧
    words cfg =
      ["cmake", "../libaom", "-G", "\"Unix", "Makefiles\"",
        "-DCMAKE_TOOLCHAIN_FILE=\"../libaom/build/cmake/toolchains/armv7-linux-gcc.cmake\"",
        "-DCONFIG_AV1_ENCODER=1", "-DCONFIG_AV1_HIGHBITDEPTH=1",
        "-DCONFIG_MAX_DECODE_PROFILE=0", "-DCONFIG_NORMAL_TILE_MODE=1",
        "-DCONFIG_SIZE_LIMIT=1", "-DDECODE_HEIGHT_LIMIT=16384", "-DDECODE_WIDTH_LIMIT=16384",
        "-DENABLE_SSE4_1=0"] ∧
    ((words cfg).drop 5).map defineOption = (defineOptions cfg).map some ∧
    defineOptions cfg =
      [("CMAKE_TOOLCHAIN_FILE", "\"../libaom/build/cmake/toolchains/armv7-linux-gcc.cmake\""),
        ("CONFIG_AV1_ENCODER", "1"), ("CONFIG_AV1_HIGHBITDEPTH", "1"),
        ("CONFIG_MAX_DECODE_PROFILE", "0"), ("CONFIG_NORMAL_TILE_MODE", "1"),
        ("CONFIG_SIZE_LIMIT", "1"), ("DECODE_HEIGHT_LIMIT", "16384"),
        ("DECODE_WIDTH_LIMIT", "16384"), ("ENABLE_SSE4_1", "0")] ∧
    "armv7-linux-gcc.cmake\"".data.isSuffixOf
      (((defineOptions cfg).lookup "CMAKE_TOOLCHAIN_FILE").getD "").data = true ∧
    ("CONFIG_AV1_ENCODER", "1") ∈ defineOptions cfg ∧
    ("CONFIG_AV1_HIGHBITDEPTH", "1") ∈ defineOptions cfg ∧
    ("ENABLE_SSE4_1", "0") ∈ defineOptions cfg := by
  decide!

/-- C12: the string returned by `aom_codec_build_config` is the toolchain invocation: it
begins with `cmake ../libaom`; after the generator option `-G "Unix Makefiles"` every word
is an option `-D<NAME>=<value>`; the first of them names the toolchain file
`armv7-linux-gcc.cmake` of the target, and `-DCONFIG_AV1_ENCODER=1`,
`-DCONFIG_AV1_HIGHBITDEPTH=1` and `-DENABLE_SSE4_1=0` are among them. -/
theorem build_config_content (st : RtcdState) :
    "cmake ../libaom".data.isPrefixOf (aom_codec_build_config st).1.data = true ∧
    words (aom_codec_build_config st).1 =
      ["cmake", "../libaom", "-G", "\"Unix", "Makefiles\"",
        "-DCMAKE_TOOLCHAIN_FILE=\"../libaom/build/cmake/toolchains/armv7-linux-gcc.cmake\"",
        "-DCONFIG_AV1_ENCODER=1", "-DCONFIG_AV1_HIGHBITDEPTH=1",
        "-DCONFIG_MAX_DECODE_PROFILE=0", "-DCONFIG_NORMAL_TILE_MODE=1",
        "-DCONFIG_SIZE_LIMIT=1", "-DDECODE_HEIGHT_LIMIT=16384", "-DDECODE_WIDTH_LIMIT=16384",
        "-DENABLE_SSE4_1=0"] ∧
    ((words (aom_codec_build_config st).1).drop 5).map defineOption =
      (defineOptions (aom_codec_build_config st).1).map some ∧
    defineOptions (aom_codec_build_config st).1 =
      [("CMAKE_TOOLCHAIN_FILE", "\"../libaom/build/cmake/toolchains/armv7-linux-gcc.cmake\""),
        ("CONFIG_AV1_ENCODER", "1"), ("CONFIG_AV1_HIGHBITDEPTH", "1"),
        ("CONFIG_MAX_DECODE_PROFILE", "0"), ("CONFIG_NORMAL_TILE_MODE", "1"),
        ("CONFIG_SIZE_LIMIT", "1"), ("DECODE_HEIGHT_LIMIT", "16384"),
        ("DECODE_WIDTH_LIMIT", "16384"), ("ENABLE_SSE4_1", "0")] ∧
    "armv7-linux-gcc.cmake\"".data.isSuffixOf
      (((defineOptions (aom_codec_build_config st).1).lookup "CMAKE_TOOLCHAIN_FILE").getD
        "").data = true ∧
    ("CONFIG_AV1_ENCODER", "1") ∈ defineOptions (aom_codec_build_config st).1 ∧
    ("CONFIG_AV1_HIGHBITDEPTH", "1") ∈ defineOptions (aom_codec_build_config st).1 ∧
    ("ENABLE_SSE4_1", "0") ∈ defineOptions (aom_codec_build_config st).1 :=
  cfg_content

/-! ## Names of variants: further generic facts -/

theorem append_neon_inj (a b : String) (h : a ++ "_neon" = b ++ "_neon") : a = b := by
  have hd := congrArg String.data h
  simp only [String.data_append, List.append_left_inj] at hd
  exact String.ext hd

theorem suffixed_inj (a b x : String) (ha : x = a ++ "_c" ∨ x = a ++ "_neon")
    (hb : x = b ++ "_c" ∨ x = b ++ "_neon") : a = b := by
  rcases ha with ha | ha <;> rcases hb with hb | hb
  · exact append_c_inj a b (ha.symm.trans hb)
  · exact absurd (hb.symm.trans ha) (neon_ne_c b a)
  · exact absurd (ha.symm.trans hb) (neon_ne_c a b)
  · exact append_neon_inj a b (ha.symm.trans hb)

theorem names_of_shape (k : KernelDescriptor) (h : BlockShape k) (x : String)
    (hx : x ∈ k.variants.map fun p => p.name) :
    x = k.name ++ "_c" ∨ x = k.name ++ "_neon" := by
  rcases h with ⟨hm, _⟩ | ⟨hm, _⟩
  · rw [hm, List.mem_singleton] at hx
    exact Or.inl hx
  · rw [hm] at hx
    rcases List.mem_cons.1 hx with e | hx2
    · exact Or.inl e
    · rw [List.mem_singleton] at hx2
      exact Or.inr hx2

theorem names_nodup_of_shape (k : KernelDescriptor) (h : BlockShape k) :
    (k.variants.map fun p => p.name).Nodup := by
  rcases h with ⟨hm, _⟩ | ⟨hm, _⟩
  · rw [hm]; simp
  · rw [hm]; simp [c_ne_neon]

theorem target_of_shape (k : KernelDescriptor) (h : BlockShape k) :
    (k.target = k.name ++ "_c" ∨ k.target = k.name ++ "_neon") ∧
    k.target ∈ k.variants.map fun p => p.name := by
  rcases h with ⟨hm, ht⟩ | ⟨hm, ht⟩
  · exact ⟨Or.inl ht, by rw [hm, ht]; simp⟩
  · exact ⟨Or.inr ht, by rw [hm, ht]; simp⟩

theorem mem_variantNames (ks : List KernelDescriptor) (hs : ∀ k ∈ ks, BlockShape k)
    (x : String) (hx : x ∈ variantNames ks) :
    ∃ k ∈ ks, x = k.name ++ "_c" ∨ x = k.name ++ "_neon" := by
  obtain ⟨k, hk, hxk⟩ := List.mem_flatMap.1 hx
  exact ⟨k, hk, names_of_shape k (hs k hk) x hxk⟩

theorem variantNames_nodup (ks : List KernelDescriptor) (hs : ∀ k ∈ ks, BlockShape k)
    (hnd : (ks.map fun k => k.name).Nodup) : (variantNames ks).Nodup := by
  induction ks with
  | nil => simp [variantNames]
  | cons k rest ih =>
    simp only [List.map_cons, List.nodup_cons] at hnd
    have hk := hs k (List.mem_cons_self _ _)
    have hs1 : ∀ x ∈ rest, BlockShape x := fun x hx => hs x (List.mem_cons_of_mem _ hx)
    have hrest := ih hs1 hnd.2
    have hsplit : variantNames (k :: rest) =
        (k.variants.map fun p => p.name) ++ variantNames rest := by
      simp [variantNames]
    rw [hsplit]
    refine List.Nodup.append (names_nodup_of_shape k hk) hrest ?_
    intro x hx1 hx2
    obtain ⟨k2, hk2, hx3⟩ := mem_variantNames rest hs1 x hx2
    have e : k.name = k2.name := suffixed_inj _ _ x (names_of_shape k hk x hx1) hx3
    exact hnd.1 (e ▸ List.mem_map.2 ⟨k2, hk2, rfl⟩)

theorem registry_names_nodup : ((registry av1_rtcd_h).map fun k => k.name).Nodup := by
  rw [← operations_registry]
  exact operations_nodup

theorem prototypes_nodup : ((prototypes av1_rtcd_h).map fun p => p.name).Nodup := by
  rw [prototypes_names]
  exact variantNames_nodup _ registry_shape registry_names_nodup

theorem target_declared (k : KernelDescriptor) (hk : k ∈ registry av1_rtcd_h) :
    ((prototypes av1_rtcd_h).countP fun p => p.name == k.target) = 1 := by
  have hmem : k.target ∈ (prototypes av1_rtcd_h).map fun p => p.name := by
    rw [prototypes_names]
    exact List.mem_flatMap.2 ⟨k, hk, (target_of_shape k (registry_shape k hk)).2⟩
  have h := List.count_eq_one_of_mem prototypes_nodup hmem
  rwa [List.count, List.countP_map] at h

/-! ## Static aliasing (C14) -/

/-- C14: every operation of `av1_rtcd.h` is introduced by exactly one `#define`, whose
target is a function declared by exactly one prototype; a call through the operation name
reaches that function in every dispatch state and after `setup_rtcd_internal` with every
capability value.  `setup_rtcd_internal` assigns to no slot, and the slot table, empty at
start, stays empty. -/
theorem static_aliasing (caps : Nat) (st : RtcdState) (op : String)
    (hop : op ∈ operations av1_rtcd_h) :
    ((aliases av1_rtcd_h).countP fun a => a.1 == op) = 1 ∧
    (∃ t, aliasOf av1_rtcd_h op = some t ∧
      ((prototypes av1_rtcd_h).countP fun p => p.name == t) = 1 ∧
      binding av1_rtcd_h st op = some t ∧
      binding av1_rtcd_h (setup_rtcd_internal caps st) op = some t) ∧
    setup_rtcd_internal caps st = st ∧
    setup_rtcd_internal caps rtcd_init = [] := by
  have hcount := List.count_eq_one_of_mem operations_nodup hop
  rw [operations, List.count, List.countP_map] at hcount
  rw [operations_registry] at hop
  obtain ⟨k, hk, rfl⟩ := List.mem_map.1 hop
  exact ⟨hcount, ⟨k.target, aliasOf_registry _ operations_nodup k hk, target_declared k hk,
    binding_registry caps st k hk, binding_registry caps st k hk⟩, rfl, rfl⟩

set_option maxRecDepth 100000 in
/-- C14, witness: static aliasing at `cdef_copy_rect8_8bit_to_16bit`, flags 0x4, from a
state holding a stray slot. -/
theorem static_aliasing_witness :
    "cdef_copy_rect8_8bit_to_16bit" ∈ operations av1_rtcd_h ∧
    (((aliases av1_rtcd_h).countP fun a => a.1 == "cdef_copy_rect8_8bit_to_16bit") = 1 ∧
    (∃ t, aliasOf av1_rtcd_h "cdef_copy_rect8_8bit_to_16bit" = some t ∧
      ((prototypes av1_rtcd_h).countP fun p => p.name == t) = 1 ∧
      binding av1_rtcd_h [("cdef_copy_rect8_8bit_to_16bit", "g")]
        "cdef_copy_rect8_8bit_to_16bit" = some t ∧
      binding av1_rtcd_h
        (setup_rtcd_internal 4 [("cdef_copy_rect8_8bit_to_16bit", "g")])
        "cdef_copy_rect8_8bit_to_16bit" = some t) ∧
    setup_rtcd_internal 4 [("cdef_copy_rect8_8bit_to_16bit", "g")] =
      [("cdef_copy_rect8_8bit_to_16bit", "g")] ∧
    setup_rtcd_internal 4 rtcd_init = []) :=
  ⟨by decide!,
    static_aliasing 4 [("cdef_copy_rect8_8bit_to_16bit", "g")] "cdef_copy_rect8_8bit_to_16bit"
      (by decide!)⟩

/-! ## Capability independence (C15) -/

/-- C15: `setup_rtcd_internal` yields the same dispatch state for any two capability
values, so every operation of `av1_rtcd.h` has the same binding under both; an operation
that declares a NEON variant is bound to `<op>_neon` under both. -/
theorem capability_independence (caps1 caps2 : Nat) (st : RtcdState) (k : KernelDescriptor)
    (hk : k ∈ registry av1_rtcd_h) :
    setup_rtcd_internal caps1 st = setup_rtcd_internal caps2 st ∧
    binding av1_rtcd_h (setup_rtcd_internal caps1 st) k.name =
      binding av1_rtcd_h (setup_rtcd_internal caps2 st) k.name ∧
    (∃ v ∈ k.variants, binding av1_rtcd_h (setup_rtcd_internal caps1 st) k.name = some v.name) ∧
    (declaresNeon k = true →
      binding av1_rtcd_h (setup_rtcd_internal caps1 st) k.name = some (k.name ++ "_neon") ∧
      binding av1_rtcd_h (setup_rtcd_internal caps2 st) k.name = some (k.name ++ "_neon")) := by
  have h1 := binding_registry caps1 st k hk
  have h2 := binding_registry caps2 st k hk
  have ht := declaresNeon_of_shape k (registry_shape k hk)
  refine ⟨rfl, by rw [h1, h2], ?_, ?_⟩
  · obtain ⟨p, hp, hpn⟩ := List.mem_map.1 (target_of_shape k (registry_shape k hk)).2
    exact ⟨p, hp, by rw [h1, hpn]⟩
  · intro hd
    rw [hd] at ht
    simp only [if_true] at ht
    exact ⟨by rw [h1, ht], by rw [h2, ht]⟩

set_option maxRecDepth 100000 in
/-- C15, witness: `av1_round_shift_array` under the flags 0 (no NEON) and 0x4. -/
theorem capability_independence_witness :
    block_av1_round_shift_array ∈ registry av1_rtcd_h ∧
    (setup_rtcd_internal 0 rtcd_init = setup_rtcd_internal 4 rtcd_init ∧
    binding av1_rtcd_h (setup_rtcd_internal 0 rtcd_init) block_av1_round_shift_array.name =
      binding av1_rtcd_h (setup_rtcd_internal 4 rtcd_init) block_av1_round_shift_array.name ∧
    (∃ v ∈ block_av1_round_shift_array.variants,
      binding av1_rtcd_h (setup_rtcd_internal 0 rtcd_init) block_av1_round_shift_array.name
        = some v.name) ∧
    (declaresNeon block_av1_round_shift_array = true →
      binding av1_rtcd_h (setup_rtcd_internal 0 rtcd_init) block_av1_round_shift_array.name
        = some (block_av1_round_shift_array.name ++ "_neon") ∧
      binding av1_rtcd_h (setup_rtcd_internal 4 rtcd_init) block_av1_round_shift_array.name
        = some (block_av1_round_shift_array.name ++ "_neon"))) :=
  ⟨by decide!, capability_independence 0 4 rtcd_init block_av1_round_shift_array (by decide!)⟩

/-! ## Well-formedness of the binding table (C16) -/

set_option maxRecDepth 100000 in
/-- C16: `av1_rtcd.h` has 95 operations; each operation name is aliased exactly once and
has a binding; the alias target is the operation name followed by `_c` or `_neon`, it is
declared by exactly one prototype of the header, and it is not a variant name of any other
operation. -/
theorem binding_well_formed (caps : Nat) (st : RtcdState) (op : String)
    (hop : op ∈ operations av1_rtcd_h) :
    (operations av1_rtcd_h).length = 95 ∧
    (operations av1_rtcd_h).count op = 1 ∧
    ∃ t, aliasOf av1_rtcd_h op = some t ∧
      binding av1_rtcd_h (setup_rtcd_internal caps st) op = some t ∧
      (t = op ++ "_c" ∨ t = op ++ "_neon") ∧
      ((prototypes av1_rtcd_h).countP fun p => p.name == t) = 1 ∧
      ∀ op2 : String, (t = op2 ++ "_c" ∨ t = op2 ++ "_neon") → op2 = op := by
  have hcount := List.count_eq_one_of_mem operations_nodup hop
  have hop2 := hop
  rw [operations_registry] at hop2
  obtain ⟨k, hk, rfl⟩ := List.mem_map.1 hop2
  have hsfx := (target_of_shape k (registry_shape k hk)).1
  exact ⟨by decide!, hcount, k.target, aliasOf_registry _ operations_nodup k hk,
    binding_registry caps st k hk, hsfx, target_declared k hk,
    fun op2 h2 => suffixed_inj op2 k.name k.target h2 hsfx⟩

set_option maxRecDepth 100000 in
/-- C16, witness: well-formedness at `av1_inv_txfm_add`, flags 0, initial state. -/
theorem binding_well_formed_witness :
    "av1_inv_txfm_add" ∈ operations av1_rtcd_h ∧
    ((operations av1_rtcd_h).length = 95 ∧
    (operations av1_rtcd_h).count "av1_inv_txfm_add" = 1 ∧
    ∃ t, aliasOf av1_rtcd_h "av1_inv_txfm_add" = some t ∧
      binding av1_rtcd_h (setup_rtcd_internal 0 rtcd_init) "av1_inv_txfm_add" = some t ∧
      (t = "av1_inv_txfm_add" ++ "_c" ∨ t = "av1_inv_txfm_add" ++ "_neon") ∧
      ((prototypes av1_rtcd_h).countP fun p => p.name == t) = 1 ∧
      ∀ op2 : String, (t = op2 ++ "_c" ∨ t = op2 ++ "_neon") → op2 = "av1_inv_txfm_add") :=
  ⟨by decide!, binding_well_formed 0 rtcd_init "av1_inv_txfm_add" (by decide!)⟩

end Av1Rtcd
